import Mathlib

/-!
# sqltypes: logical type ⇄ MySQL wire type mapping

A shallow embedding of `sqltypes/type.go`.

* Go's `Type` (an `int32`) and the `int64` wire code / wire flags are modelled
  as `Int`.  No arithmetic is performed on them, only comparison with constants
  and bitwise AND with a small non-negative mask, so a machine integer and the
  mathematical integer with the same value behave identically
  (`Int.land` is two's-complement AND).
* A Go map literal is modelled as the association list of its entries, in
  source order, and a map read as `List.lookup`.
* `MySQLToType` returns the pair `(typ, err)`; `err` is `none` for Go's `nil`
  and `some msg` for an error whose message is `msg`.
-/

namespace Sqltypes

/-- Go `type Type int32`. -/
abbrev VType := Int

/-! ## Flag constants -/

def Flag_NONE : Int := 0
def Flag_ISINTEGRAL : Int := 256
def Flag_ISUNSIGNED : Int := 512
def Flag_ISFLOAT : Int := 1024
def Flag_ISQUOTED : Int := 2048
def Flag_ISTEXT : Int := 4096
def Flag_ISBINARY : Int := 8192

/-! ## Flag masks used by the predicates (`flagIsIntegral = int(Flag_ISINTEGRAL)` ...) -/

def flagIsIntegral : Int := Flag_ISINTEGRAL
def flagIsUnsigned : Int := Flag_ISUNSIGNED
def flagIsFloat : Int := Flag_ISFLOAT
def flagIsQuoted : Int := Flag_ISQUOTED
def flagIsText : Int := Flag_ISTEXT
def flagIsBinary : Int := Flag_ISBINARY

/-! ## Type constants -/

def Type_NULL_TYPE : VType := 0
def Type_INT8 : VType := 257
def Type_UINT8 : VType := 770
def Type_INT16 : VType := 259
def Type_UINT16 : VType := 772
def Type_INT24 : VType := 261
def Type_UINT24 : VType := 774
def Type_INT32 : VType := 263
def Type_UINT32 : VType := 776
def Type_INT64 : VType := 265
def Type_UINT64 : VType := 778
def Type_FLOAT32 : VType := 1035
def Type_FLOAT64 : VType := 1036
def Type_TIMESTAMP : VType := 2061
def Type_DATE : VType := 2062
def Type_TIME : VType := 2063
def Type_DATETIME : VType := 2064
def Type_YEAR : VType := 785
def Type_DECIMAL : VType := 18
def Type_TEXT : VType := 6163
def Type_BLOB : VType := 10260
def Type_VARCHAR : VType := 6165
def Type_VARBINARY : VType := 10262
def Type_CHAR : VType := 6167
def Type_BINARY : VType := 10264
def Type_BIT : VType := 2073
def Type_ENUM : VType := 2074
def Type_SET : VType := 2075
def Type_TUPLE : VType := 28
def Type_GEOMETRY : VType := 2077
def Type_JSON : VType := 2078
def Type_EXPRESSION : VType := 31
def Type_HEXNUM : VType := 4128
def Type_HEXVAL : VType := 4129

/-! ## Idiomatic synonyms (`const ( Null = Type_NULL_TYPE ... )`) -/

def Null : VType := Type_NULL_TYPE
def Int8 : VType := Type_INT8
def Uint8 : VType := Type_UINT8
def Int16 : VType := Type_INT16
def Uint16 : VType := Type_UINT16
def Int24 : VType := Type_INT24
def Uint24 : VType := Type_UINT24
def Int32 : VType := Type_INT32
def Uint32 : VType := Type_UINT32
def Int64 : VType := Type_INT64
def Uint64 : VType := Type_UINT64
def Float32 : VType := Type_FLOAT32
def Float64 : VType := Type_FLOAT64
def Timestamp : VType := Type_TIMESTAMP
def Date : VType := Type_DATE
def Time : VType := Type_TIME
def Datetime : VType := Type_DATETIME
def Year : VType := Type_YEAR
def Decimal : VType := Type_DECIMAL
def Text : VType := Type_TEXT
def Blob : VType := Type_BLOB
def VarChar : VType := Type_VARCHAR
def VarBinary : VType := Type_VARBINARY
def Char : VType := Type_CHAR
def Binary : VType := Type_BINARY
def Bit : VType := Type_BIT
def Enum : VType := Type_ENUM
def Set : VType := Type_SET
def Geometry : VType := Type_GEOMETRY
def TypeJSON : VType := Type_JSON
def Expression : VType := Type_EXPRESSION
def HexNum : VType := Type_HEXNUM
def HexVal : VType := Type_HEXVAL
def Tuple : VType := Type_TUPLE

/-- The `Type` constants declared in `type.go`, in declaration order
(`Type_NULL_TYPE` through `Type_HEXVAL`). -/
def definedTypes : List VType :=
  [Type_NULL_TYPE, Type_INT8, Type_UINT8, Type_INT16, Type_UINT16, Type_INT24,
   Type_UINT24, Type_INT32, Type_UINT32, Type_INT64, Type_UINT64, Type_FLOAT32,
   Type_FLOAT64, Type_TIMESTAMP, Type_DATE, Type_TIME, Type_DATETIME, Type_YEAR,
   Type_DECIMAL, Type_TEXT, Type_BLOB, Type_VARCHAR, Type_VARBINARY, Type_CHAR,
   Type_BINARY, Type_BIT, Type_ENUM, Type_SET, Type_TUPLE, Type_GEOMETRY,
   Type_JSON, Type_EXPRESSION, Type_HEXNUM, Type_HEXVAL]

/-- The "Properties:" comment of each `Type` constant, in declaration order: the
constant, its ordinal, and its flags.  In these comments `IsNumber` marks the types built
with `Flag_ISINTEGRAL`; `None` is the empty flag list.  `Type_NULL_TYPE` carries no such
comment: its ordinal is 0 and it has no flags. -/
def typeProperties : List (VType × Int × List Int) :=
  [(Type_NULL_TYPE, 0, []),
   (Type_INT8, 1, [Flag_ISINTEGRAL]),
   (Type_UINT8, 2, [Flag_ISINTEGRAL, Flag_ISUNSIGNED]),
   (Type_INT16, 3, [Flag_ISINTEGRAL]),
   (Type_UINT16, 4, [Flag_ISINTEGRAL, Flag_ISUNSIGNED]),
   (Type_INT24, 5, [Flag_ISINTEGRAL]),
   (Type_UINT24, 6, [Flag_ISINTEGRAL, Flag_ISUNSIGNED]),
   (Type_INT32, 7, [Flag_ISINTEGRAL]),
   (Type_UINT32, 8, [Flag_ISINTEGRAL, Flag_ISUNSIGNED]),
   (Type_INT64, 9, [Flag_ISINTEGRAL]),
   (Type_UINT64, 10, [Flag_ISINTEGRAL, Flag_ISUNSIGNED]),
   (Type_FLOAT32, 11, [Flag_ISFLOAT]),
   (Type_FLOAT64, 12, [Flag_ISFLOAT]),
   (Type_TIMESTAMP, 13, [Flag_ISQUOTED]),
   (Type_DATE, 14, [Flag_ISQUOTED]),
   (Type_TIME, 15, [Flag_ISQUOTED]),
   (Type_DATETIME, 16, [Flag_ISQUOTED]),
   (Type_YEAR, 17, [Flag_ISINTEGRAL, Flag_ISUNSIGNED]),
   (Type_DECIMAL, 18, []),
   (Type_TEXT, 19, [Flag_ISQUOTED, Flag_ISTEXT]),
   (Type_BLOB, 20, [Flag_ISQUOTED, Flag_ISBINARY]),
   (Type_VARCHAR, 21, [Flag_ISQUOTED, Flag_ISTEXT]),
   (Type_VARBINARY, 22, [Flag_ISQUOTED, Flag_ISBINARY]),
   (Type_CHAR, 23, [Flag_ISQUOTED, Flag_ISTEXT]),
   (Type_BINARY, 24, [Flag_ISQUOTED, Flag_ISBINARY]),
   (Type_BIT, 25, [Flag_ISQUOTED]),
   (Type_ENUM, 26, [Flag_ISQUOTED]),
   (Type_SET, 27, [Flag_ISQUOTED]),
   (Type_TUPLE, 28, []),
   (Type_GEOMETRY, 29, [Flag_ISQUOTED]),
   (Type_JSON, 30, [Flag_ISQUOTED]),
   (Type_EXPRESSION, 31, []),
   (Type_HEXNUM, 32, [Flag_ISTEXT]),
   (Type_HEXVAL, 33, [Flag_ISTEXT])]

/-! ## Enum value maps -/

/-- Go `Type_name = map[int32]string{...}`, entries in source order. -/
def Type_name : List (Int × String) :=
  [(0, "NULL_TYPE"), (257, "INT8"), (770, "UINT8"), (259, "INT16"), (772, "UINT16"),
   (261, "INT24"), (774, "UINT24"), (263, "INT32"), (776, "UINT32"), (265, "INT64"),
   (778, "UINT64"), (1035, "FLOAT32"), (1036, "FLOAT64"), (2061, "TIMESTAMP"), (2062, "DATE"),
   (2063, "TIME"), (2064, "DATETIME"), (785, "YEAR"), (18, "DECIMAL"), (6163, "TEXT"),
   (10260, "BLOB"), (6165, "VARCHAR"), (10262, "VARBINARY"), (6167, "CHAR"),
   (10264, "BINARY"), (2073, "BIT"), (2074, "ENUM"), (2075, "SET"), (28, "TUPLE"),
   (2077, "GEOMETRY"), (2078, "JSON"), (31, "EXPRESSION"), (4128, "HEXNUM"), (4129, "HEXVAL")]

/-- Go `Type_value = map[string]int32{...}`, entries in source order. -/
def Type_value : List (String × Int) :=
  [("NULL_TYPE", 0), ("INT8", 257), ("UINT8", 770), ("INT16", 259), ("UINT16", 772),
   ("INT24", 261), ("UINT24", 774), ("INT32", 263), ("UINT32", 776), ("INT64", 265),
   ("UINT64", 778), ("FLOAT32", 1035), ("FLOAT64", 1036), ("TIMESTAMP", 2061), ("DATE", 2062),
   ("TIME", 2063), ("DATETIME", 2064), ("YEAR", 785), ("DECIMAL", 18), ("TEXT", 6163),
   ("BLOB", 10260), ("VARCHAR", 6165), ("VARBINARY", 10262), ("CHAR", 6167),
   ("BINARY", 10264), ("BIT", 2073), ("ENUM", 2074), ("SET", 2075), ("TUPLE", 28),
   ("GEOMETRY", 2077), ("JSON", 2078), ("EXPRESSION", 31), ("HEXNUM", 4128), ("HEXVAL", 4129)]

/-- Go `func (x Type) String() string`: a read of `Type_name`; a key that is absent
yields Go's zero value for `string`, the empty string. -/
def VType.String (x : VType) : String :=
  match Type_name.lookup x with
  | some name => name
  | none => ""

/-! ## Classification predicates -/

/-- Go `IsIntegral`. -/
def IsIntegral (t : VType) : Bool :=
  Int.land t flagIsIntegral == flagIsIntegral

/-- Go `IsSigned`. -/
def IsSigned (t : VType) : Bool :=
  Int.land t (Int.lor flagIsIntegral flagIsUnsigned) == flagIsIntegral

/-- Go `IsUnsigned`. -/
def IsUnsigned (t : VType) : Bool :=
  Int.land t (Int.lor flagIsIntegral flagIsUnsigned) == Int.lor flagIsIntegral flagIsUnsigned

/-- Go `IsFloat`. -/
def IsFloat (t : VType) : Bool :=
  Int.land t flagIsFloat == flagIsFloat

/-- Go `IsQuoted`. -/
def IsQuoted (t : VType) : Bool :=
  (Int.land t flagIsQuoted == flagIsQuoted) && t != Bit

/-- Go `IsText`. -/
def IsText (t : VType) : Bool :=
  Int.land t flagIsText == flagIsText

/-- Go `IsBinary`. -/
def IsBinary (t : VType) : Bool :=
  Int.land t flagIsBinary == flagIsBinary

/-- Go `IsNumber`. -/
def IsNumber (t : VType) : Bool :=
  IsIntegral t || IsFloat t || t == Decimal

/-- Go `IsDate`. -/
def IsDate (t : VType) : Bool :=
  t == Datetime || t == Date || t == Timestamp || t == Time

/-- Go `IsNull`. -/
def IsNull (t : VType) : Bool :=
  t == Null

/-! ## MySQL wire flags -/

def mysqlUnsigned : Int := 32
def mysqlBinary : Int := 128
def mysqlEnum : Int := 256
def mysqlSet : Int := 2048

/-- Go `var mysqlToType = map[int64]Type{...}`, entries in source order. -/
def mysqlToType : List (Int × VType) :=
  [(0, Decimal), (1, Int8), (2, Int16), (3, Int32), (4, Float32), (5, Float64),
   (6, Null), (7, Timestamp), (8, Int64), (9, Int24), (10, Date), (11, Time),
   (12, Datetime), (13, Year), (15, VarChar), (16, Bit), (17, Timestamp),
   (18, Datetime), (19, Time), (245, TypeJSON), (246, Decimal), (247, Enum),
   (248, Set), (249, Text), (250, Text), (251, Text), (252, Text),
   (253, VarChar), (254, Char), (255, Geometry)]

/-- Go `modifyType`: the `switch typ` with one flag test per case; a case whose
test fails falls out of the switch to the final `return typ`. -/
def modifyType (typ : VType) (flags : Int) : VType :=
  if typ = Int8 then
    if Int.land flags mysqlUnsigned ≠ 0 then Uint8 else typ
  else if typ = Int16 then
    if Int.land flags mysqlUnsigned ≠ 0 then Uint16 else typ
  else if typ = Int32 then
    if Int.land flags mysqlUnsigned ≠ 0 then Uint32 else typ
  else if typ = Int64 then
    if Int.land flags mysqlUnsigned ≠ 0 then Uint64 else typ
  else if typ = Int24 then
    if Int.land flags mysqlUnsigned ≠ 0 then Uint24 else typ
  else if typ = Text then
    if Int.land flags mysqlBinary ≠ 0 then Blob else typ
  else if typ = VarChar then
    if Int.land flags mysqlBinary ≠ 0 then VarBinary else typ
  else if typ = Char then
    if Int.land flags mysqlBinary ≠ 0 then Binary
    else if Int.land flags mysqlEnum ≠ 0 then Enum
    else if Int.land flags mysqlSet ≠ 0 then Set
    else typ
  else if typ = Year then
    if Int.land flags mysqlBinary ≠ 0 then VarBinary else typ
  else typ

/-- Go `fmt.Errorf("unsupported type: %d", mysqlType)`: `%d` renders an `int64`
in decimal, with a leading minus sign when negative. -/
def unsupportedTypeMsg (mysqlType : Int) : String :=
  "unsupported type: " ++ toString mysqlType

/-- Go `MySQLToType`: the returned pair `(typ, err)`. -/
def MySQLToType (mysqlType flags : Int) : VType × Option String :=
  match mysqlToType.lookup mysqlType with
  | none => (0, some (unsupportedTypeMsg mysqlType))
  | some result => (modifyType result flags, none)

/-- Go `AreTypesEquivalent`. -/
def AreTypesEquivalent (mysqlTypeFromBinlog mysqlTypeFromSchema : VType) : Bool :=
  (mysqlTypeFromBinlog == mysqlTypeFromSchema) ||
  (mysqlTypeFromBinlog == VarChar && mysqlTypeFromSchema == VarBinary) ||
  (mysqlTypeFromBinlog == Char && mysqlTypeFromSchema == Binary) ||
  (mysqlTypeFromBinlog == Char && mysqlTypeFromSchema == Enum) ||
  (mysqlTypeFromBinlog == Char && mysqlTypeFromSchema == Set) ||
  (mysqlTypeFromBinlog == Text && mysqlTypeFromSchema == Blob) ||
  (mysqlTypeFromBinlog == Int8 && mysqlTypeFromSchema == Uint8) ||
  (mysqlTypeFromBinlog == Int16 && mysqlTypeFromSchema == Uint16) ||
  (mysqlTypeFromBinlog == Int24 && mysqlTypeFromSchema == Uint24) ||
  (mysqlTypeFromBinlog == Int32 && mysqlTypeFromSchema == Uint32) ||
  (mysqlTypeFromBinlog == Int64 && mysqlTypeFromSchema == Uint64)

/-- Go `var typeToMySQL = map[Type]struct{ typ, flags int64 }{...}`, entries in
source order; an omitted `flags` field is Go's zero value. -/
def typeToMySQL : List (VType × (Int × Int)) :=
  [(Int8, (1, 0)), (Uint8, (1, mysqlUnsigned)),
   (Int16, (2, 0)), (Uint16, (2, mysqlUnsigned)),
   (Int32, (3, 0)), (Uint32, (3, mysqlUnsigned)),
   (Float32, (4, 0)), (Float64, (5, 0)),
   (Null, (6, mysqlBinary)), (Timestamp, (7, 0)),
   (Int64, (8, 0)), (Uint64, (8, mysqlUnsigned)),
   (Int24, (9, 0)), (Uint24, (9, mysqlUnsigned)),
   (Date, (10, mysqlBinary)), (Time, (11, mysqlBinary)),
   (Datetime, (12, mysqlBinary)), (Year, (13, mysqlUnsigned)),
   (Bit, (16, mysqlUnsigned)), (TypeJSON, (245, 0)), (Decimal, (246, 0)),
   (Text, (252, 0)), (Blob, (252, mysqlBinary)),
   (VarChar, (253, 0)), (VarBinary, (253, mysqlBinary)),
   (Char, (254, 0)), (Binary, (254, mysqlBinary)),
   (Enum, (254, mysqlEnum)), (Set, (254, mysqlSet)),
   (Geometry, (255, 0))]

/-- Go `TypeToMySQL`: reading a key that is absent from a map yields the zero
value of the element type, here the struct with `typ = 0` and `flags = 0`. -/
def TypeToMySQL (typ : VType) : Int × Int :=
  match typeToMySQL.lookup typ with
  | some val => (val.1, val.2)
  | none => (0, 0)

end Sqltypes

namespace Sqltypes

/-! ## Bitwise helpers -/

/-- AND with a non-negative mask is non-negative. -/
theorem land_natCast_nonneg (f : Int) (m : Nat) : ∃ x : Nat, Int.land f (m : Int) = (x : Int) := by
  cases f with
  | ofNat n => exact ⟨n &&& m, rfl⟩
  | negSucc n => exact ⟨Nat.ldiff m n, rfl⟩

/-- The test `flags & 2^k != 0` holds exactly when bit `k` of `flags` is set. -/
theorem land_two_pow_ne_zero_iff (f : Int) (k : Nat) :
    Int.land f ((2 ^ k : Nat) : Int) ≠ 0 ↔ f.testBit k = true := by
  obtain ⟨x, hx⟩ := land_natCast_nonneg f (2 ^ k)
  have hbit : ∀ i, x.testBit i = (f.testBit i && decide (k = i)) := by
    intro i
    have h := Int.testBit_land f ((2 ^ k : Nat) : Int) i
    rw [hx] at h
    simpa [Int.testBit, Nat.testBit_two_pow] using h
  rw [hx]
  constructor
  · intro hne
    have hx0 : x ≠ 0 := fun h0 => hne (by simp [h0])
    obtain ⟨i, hi⟩ := Nat.ne_zero_implies_bit_true hx0
    rw [hbit i] at hi
    simp only [Bool.and_eq_true, decide_eq_true_eq] at hi
    obtain ⟨hf, hki⟩ := hi
    rw [hki]; exact hf
  · intro hf hzero
    have hx0 : x = 0 := by exact_mod_cast hzero
    have hk := hbit k
    rw [hx0, hf] at hk
    simp at hk

/-- The test `flags&mysqlUnsigned != 0` reads bit 5 of `flags`. -/
theorem unsigned_test_iff (f : Int) : Int.land f mysqlUnsigned ≠ 0 ↔ f.testBit 5 = true :=
  land_two_pow_ne_zero_iff f 5

/-- The test `flags&mysqlBinary != 0` reads bit 7 of `flags`. -/
theorem binary_test_iff (f : Int) : Int.land f mysqlBinary ≠ 0 ↔ f.testBit 7 = true :=
  land_two_pow_ne_zero_iff f 7

/-- The test `flags&mysqlEnum != 0` reads bit 8 of `flags`. -/
theorem enum_test_iff (f : Int) : Int.land f mysqlEnum ≠ 0 ↔ f.testBit 8 = true :=
  land_two_pow_ne_zero_iff f 8

/-- The test `flags&mysqlSet != 0` reads bit 11 of `flags`. -/
theorem set_test_iff (f : Int) : Int.land f mysqlSet ≠ 0 ↔ f.testBit 11 = true :=
  land_two_pow_ne_zero_iff f 11

/-! ## Table facts shared by several results -/

/-- The wire codes that are keys of `mysqlToType`. -/
theorem mem_mysqlToType_keys_iff (c : Int) :
    c ∈ mysqlToType.map Prod.fst ↔
      (0 ≤ c ∧ c ≤ 13) ∨ (15 ≤ c ∧ c ≤ 19) ∨ (245 ≤ c ∧ c ≤ 255) := by
  simp only [mysqlToType, List.map_cons, List.map_nil, List.mem_cons, List.mem_nil_iff,
    or_false]
  omega

/-- A map read misses exactly on the codes that are not keys. -/
theorem lookup_mysqlToType_eq_none_iff (c : Int) :
    mysqlToType.lookup c = none ↔ c ∉ mysqlToType.map Prod.fst := by
  rw [List.lookup_eq_none_iff]
  constructor
  · intro h hc
    obtain ⟨p, hp, hpc⟩ := List.mem_map.mp hc
    have hne := h p hp
    rw [bne_iff_ne] at hne
    exact hne hpc.symm
  · intro h p hp
    rw [bne_iff_ne]
    exact fun hpc => h (List.mem_map.mpr ⟨p, hp, hpc.symm⟩)

/-! ## C1 -/

/-- C1 (as stated, refuted): `Tuple` is a defined type, yet `TypeToMySQL(Tuple)` is the
zero pair `(0, 0)` and `MySQLToType(0, 0)` returns `Decimal`, not `Tuple`. -/
theorem decode_encode_tuple_is_decimal :
    Tuple ∈ definedTypes ∧ TypeToMySQL Tuple = (0, 0) ∧
      MySQLToType 0 0 = (Decimal, none) ∧
      MySQLToType (TypeToMySQL Tuple).1 (TypeToMySQL Tuple).2 ≠ (Tuple, none) := by
  decide

/-- C1 (amended): every defined type other than `Tuple`, `Expression`, `HexNum` and
`HexVal` round-trips: decoding the pair produced by `TypeToMySQL` succeeds (nil error)
and returns exactly the type encoded, for plain and flagged variants alike. -/
theorem decode_encode_defined (t : VType) (ht : t ∈ definedTypes)
    (hm : t ∉ [Tuple, Expression, HexNum, HexVal]) :
    MySQLToType (TypeToMySQL t).1 (TypeToMySQL t).2 = (t, none) := by
  have hall : ∀ u ∈ definedTypes, u ∉ [Tuple, Expression, HexNum, HexVal] →
      MySQLToType (TypeToMySQL u).1 (TypeToMySQL u).2 = (u, none) := by decide
  exact hall t ht hm

/-- C1 witness: `Blob`, a binary-flagged variant, round-trips to itself. -/
theorem decode_encode_defined_witness :
    TypeToMySQL Blob = (252, 128) ∧
      MySQLToType (TypeToMySQL Blob).1 (TypeToMySQL Blob).2 = (Blob, none) :=
  ⟨by decide, decode_encode_defined Blob (by decide) (by decide)⟩

/-! ## C2 -/

/-- C2: `typeToMySQL` has 30 entries with pairwise distinct keys; for each entry
`(t, (c, f))` the code `c` is a key of `mysqlToType`, `modifyType (mysqlToType[c]) f = t`
and `TypeToMySQL t` is that entry, so `MySQLToType(TypeToMySQL(t)) = (t, nil)`; and
`TypeToMySQL` is injective on the 30 keys. -/
theorem typeToMySQL_reverse_of_mysqlToType :
    typeToMySQL.length = 30 ∧
    (typeToMySQL.map Prod.fst).Nodup ∧
    (∀ e ∈ typeToMySQL,
      e.2.1 ∈ mysqlToType.map Prod.fst ∧
      (mysqlToType.lookup e.2.1).map (fun base => modifyType base e.2.2) = some e.1 ∧
      TypeToMySQL e.1 = e.2 ∧
      MySQLToType (TypeToMySQL e.1).1 (TypeToMySQL e.1).2 = (e.1, none)) ∧
    (∀ t₁ ∈ typeToMySQL.map Prod.fst, ∀ t₂ ∈ typeToMySQL.map Prod.fst,
      TypeToMySQL t₁ = TypeToMySQL t₂ → t₁ = t₂) := by
  refine ⟨by decide, by decide, by decide, by decide⟩

/-- C2 at the entry for `Set`: the pair `(254, 2048)` decodes back to `Set`. -/
theorem typeToMySQL_reverse_of_mysqlToType_witness :
    TypeToMySQL Set = (254, mysqlSet) ∧
      MySQLToType (TypeToMySQL Set).1 (TypeToMySQL Set).2 = (Set, none) :=
  ⟨(typeToMySQL_reverse_of_mysqlToType.2.2.1 (Set, (254, mysqlSet)) (by decide)).2.2.1,
   (typeToMySQL_reverse_of_mysqlToType.2.2.1 (Set, (254, mysqlSet)) (by decide)).2.2.2⟩

/-! ## C3 -/

/-- C3: `MySQLToType c f` returns an error exactly when `c` is not a key of `mysqlToType`,
that is, not in `0..13`, `15..19`, `245..255` (30 keys); failure does not depend on `f`;
on failure the type is `0` and the message is `"unsupported type: "` followed by the
decimal rendering of `c`; on success the error is nil. -/
theorem MySQLToType_error_iff (c f : Int) :
    ((MySQLToType c f).2 ≠ none ↔ c ∉ mysqlToType.map Prod.fst) ∧
    (c ∉ mysqlToType.map Prod.fst ↔
      ¬ ((0 ≤ c ∧ c ≤ 13) ∨ (15 ≤ c ∧ c ≤ 19) ∨ (245 ≤ c ∧ c ≤ 255))) ∧
    (mysqlToType.map Prod.fst).length = 30 ∧
    (∀ g : Int, (MySQLToType c f).2 = none ↔ (MySQLToType c g).2 = none) ∧
    ((MySQLToType c f).2 ≠ none →
      MySQLToType c f = (0, some ("unsupported type: " ++ toString c))) ∧
    (c ∈ mysqlToType.map Prod.fst → (MySQLToType c f).2 = none) ∧
    MySQLToType 9999 0 = (0, some "unsupported type: 9999") := by
  have hsplit : ∀ g : Int,
      (c ∉ mysqlToType.map Prod.fst ∧
        MySQLToType c g = (0, some ("unsupported type: " ++ toString c))) ∨
      (c ∈ mysqlToType.map Prod.fst ∧ (MySQLToType c g).2 = none) := by
    intro g
    cases hl : mysqlToType.lookup c with
    | none =>
      left
      exact ⟨(lookup_mysqlToType_eq_none_iff c).mp hl, by
        simp [MySQLToType, hl, unsupportedTypeMsg]⟩
    | some base =>
      right
      refine ⟨?_, by simp [MySQLToType, hl]⟩
      by_contra hc
      rw [(lookup_mysqlToType_eq_none_iff c).mpr hc] at hl
      exact Option.noConfusion hl
  refine ⟨?_, ?_, by decide, ?_, ?_, ?_, by decide⟩
  · rcases hsplit f with ⟨hc, hf⟩ | ⟨hc, hf⟩
    · simp [hf, hc]
    · simp [hf, hc]
  · rw [mem_mysqlToType_keys_iff]
  · intro g
    rcases hsplit f with ⟨hc, hf⟩ | ⟨hc, hf⟩ <;> rcases hsplit g with ⟨hc', hg⟩ | ⟨hc', hg⟩
    · simp [hf, hg]
    · exact absurd hc' hc
    · exact absurd hc hc'
    · simp [hf, hg]
  · intro herr
    rcases hsplit f with ⟨_, hf⟩ | ⟨_, hf⟩
    · exact hf
    · exact absurd hf herr
  · intro hc
    rcases hsplit f with ⟨hc', _⟩ | ⟨_, hf⟩
    · exact absurd hc hc'
    · exact hf

/-- C3 at code 14, the gap in the key range: the decode fails with the formatted message. -/
theorem MySQLToType_error_iff_witness :
    (MySQLToType 14 7).2 ≠ none ∧ MySQLToType 14 7 = (0, some "unsupported type: 14") :=
  ⟨((MySQLToType_error_iff 14 7).1).mpr (by decide),
   (MySQLToType_error_iff 14 7).2.2.2.2.1 (((MySQLToType_error_iff 14 7).1).mpr (by decide))⟩

/-! ## Decoding through the two stages -/

/-- When the table has an entry for the code, decoding is `modifyType` of the base. -/
theorem MySQLToType_of_lookup (c f : Int) (base : VType)
    (h : mysqlToType.lookup c = some base) :
    MySQLToType c f = (modifyType base f, none) := by
  simp [MySQLToType, h]

/-- The switch of `modifyType`, with each flag test read as a bit of `flags`. -/
theorem modifyType_bits (typ : VType) (f : Int) :
    modifyType typ f =
      if typ = Int8 then (if f.testBit 5 then Uint8 else typ)
      else if typ = Int16 then (if f.testBit 5 then Uint16 else typ)
      else if typ = Int32 then (if f.testBit 5 then Uint32 else typ)
      else if typ = Int64 then (if f.testBit 5 then Uint64 else typ)
      else if typ = Int24 then (if f.testBit 5 then Uint24 else typ)
      else if typ = Text then (if f.testBit 7 then Blob else typ)
      else if typ = VarChar then (if f.testBit 7 then VarBinary else typ)
      else if typ = Char then
        (if f.testBit 7 then Binary else if f.testBit 8 then Enum
         else if f.testBit 11 then Set else typ)
      else if typ = Year then (if f.testBit 7 then VarBinary else typ)
      else typ := by
  simp only [modifyType, unsigned_test_iff f, binary_test_iff f, enum_test_iff f,
    set_test_iff f]

/-- The signed-integer bases: only bit 5 (`mysqlUnsigned`) is consulted. -/
theorem modifyType_signed (f : Int) :
    modifyType Int8 f = (if f.testBit 5 then Uint8 else Int8) ∧
    modifyType Int16 f = (if f.testBit 5 then Uint16 else Int16) ∧
    modifyType Int24 f = (if f.testBit 5 then Uint24 else Int24) ∧
    modifyType Int32 f = (if f.testBit 5 then Uint32 else Int32) ∧
    modifyType Int64 f = (if f.testBit 5 then Uint64 else Int64) := by
  simp [modifyType_bits, Null, Int8, Uint8, Int16, Uint16, Int24, Uint24, Int32, Uint32, Int64, Uint64, Float32,
    Float64, Timestamp, Date, Time, Datetime, Year, Decimal, Text, Blob, VarChar, VarBinary, Char,
    Binary, Bit, Enum, Set, Geometry, TypeJSON, Type_NULL_TYPE, Type_INT8, Type_UINT8, Type_INT16,
    Type_UINT16, Type_INT24, Type_UINT24, Type_INT32, Type_UINT32, Type_INT64, Type_UINT64,
    Type_FLOAT32, Type_FLOAT64, Type_TIMESTAMP, Type_DATE, Type_TIME, Type_DATETIME, Type_YEAR,
    Type_DECIMAL, Type_TEXT, Type_BLOB, Type_VARCHAR, Type_VARBINARY, Type_CHAR, Type_BINARY,
    Type_BIT, Type_ENUM, Type_SET, Type_GEOMETRY, Type_JSON]

/-- The `Text` and `VarChar` bases: only bit 7 (`mysqlBinary`) is consulted. -/
theorem modifyType_text_varchar (f : Int) :
    modifyType Text f = (if f.testBit 7 then Blob else Text) ∧
    modifyType VarChar f = (if f.testBit 7 then VarBinary else VarChar) := by
  simp [modifyType_bits, Null, Int8, Uint8, Int16, Uint16, Int24, Uint24, Int32, Uint32, Int64, Uint64, Float32,
    Float64, Timestamp, Date, Time, Datetime, Year, Decimal, Text, Blob, VarChar, VarBinary, Char,
    Binary, Bit, Enum, Set, Geometry, TypeJSON, Type_NULL_TYPE, Type_INT8, Type_UINT8, Type_INT16,
    Type_UINT16, Type_INT24, Type_UINT24, Type_INT32, Type_UINT32, Type_INT64, Type_UINT64,
    Type_FLOAT32, Type_FLOAT64, Type_TIMESTAMP, Type_DATE, Type_TIME, Type_DATETIME, Type_YEAR,
    Type_DECIMAL, Type_TEXT, Type_BLOB, Type_VARCHAR, Type_VARBINARY, Type_CHAR, Type_BINARY,
    Type_BIT, Type_ENUM, Type_SET, Type_GEOMETRY, Type_JSON]

/-- The `Char` base: bits 7, 8 and 11, in that order. -/
theorem modifyType_char (f : Int) :
    modifyType Char f =
      (if f.testBit 7 then Binary else if f.testBit 8 then Enum
       else if f.testBit 11 then Set else Char) := by
  simp [modifyType_bits, Null, Int8, Uint8, Int16, Uint16, Int24, Uint24, Int32, Uint32, Int64, Uint64, Float32,
    Float64, Timestamp, Date, Time, Datetime, Year, Decimal, Text, Blob, VarChar, VarBinary, Char,
    Binary, Bit, Enum, Set, Geometry, TypeJSON, Type_NULL_TYPE, Type_INT8, Type_UINT8, Type_INT16,
    Type_UINT16, Type_INT24, Type_UINT24, Type_INT32, Type_UINT32, Type_INT64, Type_UINT64,
    Type_FLOAT32, Type_FLOAT64, Type_TIMESTAMP, Type_DATE, Type_TIME, Type_DATETIME, Type_YEAR,
    Type_DECIMAL, Type_TEXT, Type_BLOB, Type_VARCHAR, Type_VARBINARY, Type_CHAR, Type_BINARY,
    Type_BIT, Type_ENUM, Type_SET, Type_GEOMETRY, Type_JSON]

/-- The `Year` base: only bit 7 (`mysqlBinary`) is consulted. -/
theorem modifyType_year (f : Int) :
    modifyType Year f = (if f.testBit 7 then VarBinary else Year) := by
  simp [modifyType_bits, Null, Int8, Uint8, Int16, Uint16, Int24, Uint24, Int32, Uint32, Int64, Uint64, Float32,
    Float64, Timestamp, Date, Time, Datetime, Year, Decimal, Text, Blob, VarChar, VarBinary, Char,
    Binary, Bit, Enum, Set, Geometry, TypeJSON, Type_NULL_TYPE, Type_INT8, Type_UINT8, Type_INT16,
    Type_UINT16, Type_INT24, Type_UINT24, Type_INT32, Type_UINT32, Type_INT64, Type_UINT64,
    Type_FLOAT32, Type_FLOAT64, Type_TIMESTAMP, Type_DATE, Type_TIME, Type_DATETIME, Type_YEAR,
    Type_DECIMAL, Type_TEXT, Type_BLOB, Type_VARCHAR, Type_VARBINARY, Type_CHAR, Type_BINARY,
    Type_BIT, Type_ENUM, Type_SET, Type_GEOMETRY, Type_JSON]

/-- A base outside the nine cases of the switch is returned unchanged. -/
theorem modifyType_other (typ : VType) (f : Int)
    (h : typ ∉ [Int8, Int16, Int24, Int32, Int64, Text, VarChar, Char, Year]) :
    modifyType typ f = typ := by
  simp only [List.mem_cons, List.mem_nil_iff, or_false, not_or] at h
  obtain ⟨h1, h2, h3, h4, h5, h6, h7, h8, h9⟩ := h
  simp [modifyType, h1, h2, h3, h4, h5, h6, h7, h8, h9]

/-! ## C4 -/

/-- C4: for wire code 254 (base `Char`) and every flags value `f`, decoding succeeds and
returns `Binary` if bit 7 (128) of `f` is set, else `Enum` if bit 8 (256) is set, else `Set`
if bit 11 (2048) is set, else `Char`; flags that agree on these three bits decode alike. -/
theorem MySQLToType_char (f : Int) :
    mysqlToType.lookup 254 = some Char ∧
    MySQLToType 254 f =
      (if Int.land f mysqlBinary ≠ 0 then Binary
       else if Int.land f mysqlEnum ≠ 0 then Enum
       else if Int.land f mysqlSet ≠ 0 then Set else Char, none) ∧
    (Int.land f mysqlBinary ≠ 0 ↔ f.testBit 7 = true) ∧
    (Int.land f mysqlEnum ≠ 0 ↔ f.testBit 8 = true) ∧
    (Int.land f mysqlSet ≠ 0 ↔ f.testBit 11 = true) ∧
    (∀ g : Int, g.testBit 7 = f.testBit 7 → g.testBit 8 = f.testBit 8 →
      g.testBit 11 = f.testBit 11 → MySQLToType 254 g = MySQLToType 254 f) ∧
    MySQLToType 254 256 = (Enum, none) ∧ MySQLToType 254 2048 = (Set, none) ∧
    MySQLToType 254 0 = (Char, none) ∧ MySQLToType 254 128 = (Binary, none) ∧
    MySQLToType 254 (128 + 256 + 2048) = (Binary, none) ∧
    MySQLToType 254 (256 + 2048) = (Enum, none) := by
  have hl : mysqlToType.lookup 254 = some Char := by decide
  have hdec : ∀ g : Int, MySQLToType 254 g =
      (if g.testBit 7 then Binary else if g.testBit 8 then Enum
       else if g.testBit 11 then Set else Char, none) := by
    intro g
    rw [MySQLToType_of_lookup 254 g Char hl, modifyType_char]
  refine ⟨hl, ?_, binary_test_iff f, enum_test_iff f, set_test_iff f, ?_,
    by decide, by decide, by decide, by decide, by decide, by decide⟩
  · rw [hdec f]
    simp only [binary_test_iff f, enum_test_iff f, set_test_iff f]
  · intro g h7 h8 h11
    rw [hdec g, hdec f, h7, h8, h11]

/-- C4 at `f = -1` (every bit set): the binary bit wins. -/
theorem MySQLToType_char_witness : MySQLToType 254 (-1) = (Binary, none) := by
  have h := (MySQLToType_char (-1)).2.1
  have hb := ((MySQLToType_char (-1)).2.2.1).mpr (by decide)
  rw [if_pos hb] at h
  exact h

/-! ## C5 -/

/-- C5: for every flags value `f`, (i) the signed-integer codes 1, 2, 9, 3, 8 decode to the
unsigned counterpart exactly when bit 5 (32) of `f` is set and to the signed base otherwise;
(ii) the codes 249..252 decode to `Blob` exactly when bit 7 (128) is set and to `Text`
otherwise; (iii) the codes 15 and 253 decode to `VarBinary` exactly when bit 7 is set and to
`VarChar` otherwise.  Flags that agree on the one bit decode alike. -/
theorem MySQLToType_single_bit (f : Int) :
    (Int.land f mysqlUnsigned ≠ 0 ↔ f.testBit 5 = true) ∧
    (Int.land f mysqlBinary ≠ 0 ↔ f.testBit 7 = true) ∧
    (∀ e ∈ [((1 : Int), Int8, Uint8), (2, Int16, Uint16), (9, Int24, Uint24),
            (3, Int32, Uint32), (8, Int64, Uint64)],
      mysqlToType.lookup e.1 = some e.2.1 ∧
      MySQLToType e.1 f = (if Int.land f mysqlUnsigned ≠ 0 then e.2.2 else e.2.1, none) ∧
      ((MySQLToType e.1 f).1 = e.2.2 ↔ Int.land f mysqlUnsigned ≠ 0) ∧
      (∀ g : Int, g.testBit 5 = f.testBit 5 → MySQLToType e.1 g = MySQLToType e.1 f)) ∧
    (∀ c ∈ [(249 : Int), 250, 251, 252],
      mysqlToType.lookup c = some Text ∧
      MySQLToType c f = (if Int.land f mysqlBinary ≠ 0 then Blob else Text, none) ∧
      ((MySQLToType c f).1 = Blob ↔ Int.land f mysqlBinary ≠ 0) ∧
      (∀ g : Int, g.testBit 7 = f.testBit 7 → MySQLToType c g = MySQLToType c f)) ∧
    (∀ c ∈ [(15 : Int), 253],
      mysqlToType.lookup c = some VarChar ∧
      MySQLToType c f = (if Int.land f mysqlBinary ≠ 0 then VarBinary else VarChar, none) ∧
      ((MySQLToType c f).1 = VarBinary ↔ Int.land f mysqlBinary ≠ 0) ∧
      (∀ g : Int, g.testBit 7 = f.testBit 7 → MySQLToType c g = MySQLToType c f)) := by
  have key : ∀ (c : Int) (base alt : VType) (k : Nat) (mask : Int),
      mysqlToType.lookup c = some base → alt ≠ base →
      (∀ g : Int, Int.land g mask ≠ 0 ↔ g.testBit k = true) →
      (∀ g : Int, modifyType base g = (if g.testBit k then alt else base)) →
      mysqlToType.lookup c = some base ∧
      MySQLToType c f = (if Int.land f mask ≠ 0 then alt else base, none) ∧
      ((MySQLToType c f).1 = alt ↔ Int.land f mask ≠ 0) ∧
      (∀ g : Int, g.testBit k = f.testBit k → MySQLToType c g = MySQLToType c f) := by
    intro c base alt k mask hl hne hbit hmod
    have hdec : ∀ g : Int, MySQLToType c g = (if g.testBit k then alt else base, none) := by
      intro g
      rw [MySQLToType_of_lookup c g base hl, hmod g]
    refine ⟨hl, ?_, ?_, ?_⟩
    · rw [hdec f]; simp only [hbit f]
    · rw [hdec f, hbit f]
      by_cases hk : f.testBit k = true
      · simp [hk]
      · simp [hk, Ne.symm hne]
    · intro g hg
      rw [hdec g, hdec f, hg]
  refine ⟨unsigned_test_iff f, binary_test_iff f, ?_, ?_, ?_⟩
  · intro e he
    simp only [List.mem_cons, List.mem_nil_iff, or_false] at he
    rcases he with rfl | rfl | rfl | rfl | rfl
    · exact key 1 Int8 Uint8 5 mysqlUnsigned (by decide) (by decide) unsigned_test_iff
        (fun g => (modifyType_signed g).1)
    · exact key 2 Int16 Uint16 5 mysqlUnsigned (by decide) (by decide) unsigned_test_iff
        (fun g => (modifyType_signed g).2.1)
    · exact key 9 Int24 Uint24 5 mysqlUnsigned (by decide) (by decide) unsigned_test_iff
        (fun g => (modifyType_signed g).2.2.1)
    · exact key 3 Int32 Uint32 5 mysqlUnsigned (by decide) (by decide) unsigned_test_iff
        (fun g => (modifyType_signed g).2.2.2.1)
    · exact key 8 Int64 Uint64 5 mysqlUnsigned (by decide) (by decide) unsigned_test_iff
        (fun g => (modifyType_signed g).2.2.2.2)
  · intro c hc
    simp only [List.mem_cons, List.mem_nil_iff, or_false] at hc
    rcases hc with rfl | rfl | rfl | rfl <;>
      exact key _ Text Blob 7 mysqlBinary (by decide) (by decide) binary_test_iff
        (fun g => (modifyType_text_varchar g).1)
  · intro c hc
    simp only [List.mem_cons, List.mem_nil_iff, or_false] at hc
    rcases hc with rfl | rfl <;>
      exact key _ VarChar VarBinary 7 mysqlBinary (by decide) (by decide) binary_test_iff
        (fun g => (modifyType_text_varchar g).2)

/-- C5 at `f = -1` (every bit set): the refined variants are returned. -/
theorem MySQLToType_single_bit_witness :
    MySQLToType 1 (-1) = (Uint8, none) ∧ MySQLToType 252 (-1) = (Blob, none) ∧
      MySQLToType 15 (-1) = (VarBinary, none) := by
  have h := MySQLToType_single_bit (-1)
  have hu := h.1.mpr (by decide)
  have hb := h.2.1.mpr (by decide)
  have h1 := (h.2.2.1 (1, Int8, Uint8) (by decide)).2.1
  have h2 := (h.2.2.2.1 252 (by decide)).2.1
  have h3 := (h.2.2.2.2 15 (by decide)).2.1
  rw [if_pos hu] at h1
  rw [if_pos hb] at h2 h3
  exact ⟨h1, h2, h3⟩

/-! ## C6 -/

/-- C6: for wire code 13 (base `Year`) and every flags value `f`, decoding succeeds and
returns `VarBinary` if bit 7 (128) of `f` is set and `Year` otherwise; flags that agree on
bit 7 decode alike, whatever their unsigned, enum-marker and set-marker bits. -/
theorem MySQLToType_year (f : Int) :
    mysqlToType.lookup 13 = some Year ∧
    MySQLToType 13 f = (if Int.land f mysqlBinary ≠ 0 then VarBinary else Year, none) ∧
    (Int.land f mysqlBinary ≠ 0 ↔ f.testBit 7 = true) ∧
    (∀ g : Int, g.testBit 7 = f.testBit 7 → MySQLToType 13 g = MySQLToType 13 f) ∧
    MySQLToType 13 128 = (VarBinary, none) ∧
    MySQLToType 13 (32 + 256 + 2048) = (Year, none) ∧
    MySQLToType 13 (32 + 128 + 256 + 2048) = (VarBinary, none) := by
  have hl : mysqlToType.lookup 13 = some Year := by decide
  have hdec : ∀ g : Int, MySQLToType 13 g = (if g.testBit 7 then VarBinary else Year, none) := by
    intro g
    rw [MySQLToType_of_lookup 13 g Year hl, modifyType_year]
  refine ⟨hl, ?_, binary_test_iff f, ?_, by decide, by decide, by decide⟩
  · rw [hdec f]; simp only [binary_test_iff f]
  · intro g hg
    rw [hdec g, hdec f, hg]

/-- C6 at `f = -1` (every bit set): `Year` is refined to `VarBinary`. -/
theorem MySQLToType_year_witness : MySQLToType 13 (-1) = (VarBinary, none) := by
  have h := (MySQLToType_year (-1)).2.1
  have hb := ((MySQLToType_year (-1)).2.2.1).mpr (by decide)
  rw [if_pos hb] at h
  exact h

/-! ## C7 -/

/-- C7: the entries of `mysqlToType` whose base is none of `Int8`, `Int16`, `Int24`,
`Int32`, `Int64`, `Text`, `VarChar`, `Char`, `Year` are exactly those with code in
`{0, 4, 5, 6, 7, 10, 11, 12, 16, 17, 18, 19, 245, 246, 247, 248, 255}` (each entry being what a
read of the map at its code yields), and for each of them and every flags value `f`,
`MySQLToType` returns the base unchanged with a nil error, the same for all flags. -/
theorem MySQLToType_unrefined (f : Int) :
    (∀ e ∈ mysqlToType,
      mysqlToType.lookup e.1 = some e.2 ∧
      (e.2 ∉ [Int8, Int16, Int24, Int32, Int64, Text, VarChar, Char, Year] ↔
        e.1 ∈ [(0 : Int), 4, 5, 6, 7, 10, 11, 12, 16, 17, 18, 19, 245, 246, 247, 248, 255])) ∧
    (∀ e ∈ mysqlToType,
      e.1 ∈ [(0 : Int), 4, 5, 6, 7, 10, 11, 12, 16, 17, 18, 19, 245, 246, 247, 248, 255] →
      MySQLToType e.1 f = (e.2, none) ∧
      ∀ g : Int, MySQLToType e.1 g = MySQLToType e.1 f) := by
  have hkeys : ∀ e ∈ mysqlToType,
      mysqlToType.lookup e.1 = some e.2 ∧
      (e.2 ∉ [Int8, Int16, Int24, Int32, Int64, Text, VarChar, Char, Year] ↔
        e.1 ∈ [(0 : Int), 4, 5, 6, 7, 10, 11, 12, 16, 17, 18, 19, 245, 246, 247, 248, 255]) := by
    decide
  refine ⟨hkeys, ?_⟩
  intro e he hc
  have hbase := (hkeys e he).2.mpr hc
  have hl := (hkeys e he).1
  have hdec : ∀ g : Int, MySQLToType e.1 g = (e.2, none) := by
    intro g
    rw [MySQLToType_of_lookup e.1 g e.2 hl, modifyType_other e.2 g hbase]
  exact ⟨hdec f, fun g => by rw [hdec g, hdec f]⟩

/-- C7 at code 16 and `f = -1` (every bit set): `Bit` is returned unchanged. -/
theorem MySQLToType_unrefined_witness : MySQLToType 16 (-1) = (Bit, none) :=
  ((MySQLToType_unrefined (-1)).2 (16, Bit) (by decide) (by decide)).1

/-! ## C8 -/

/-- C8: for every `Type` value `t` that is not a key of `typeToMySQL`, `TypeToMySQL t` is
the zero pair `(0, 0)`; for every key it is exactly the table entry.  The table has 30
distinct keys, all of them defined types; the defined types that are not keys are exactly
`Tuple`, `Expression`, `HexNum` and `HexVal`, and every undefined value is a non-key. -/
theorem TypeToMySQL_zero_or_entry (t : VType) :
    (t ∉ typeToMySQL.map Prod.fst → TypeToMySQL t = (0, 0)) ∧
    (∀ v : Int × Int, (t, v) ∈ typeToMySQL → TypeToMySQL t = v) ∧
    (typeToMySQL.map Prod.fst).length = 30 ∧
    (typeToMySQL.map Prod.fst).Nodup ∧
    (t ∉ definedTypes → t ∉ typeToMySQL.map Prod.fst) ∧
    (t ∈ definedTypes →
      (t ∉ typeToMySQL.map Prod.fst ↔ t ∈ [Tuple, Expression, HexNum, HexVal])) ∧
    TypeToMySQL Tuple = (0, 0) ∧ TypeToMySQL Expression = (0, 0) ∧
    TypeToMySQL HexNum = (0, 0) ∧ TypeToMySQL HexVal = (0, 0) := by
  have hsub : ∀ k ∈ typeToMySQL.map Prod.fst, k ∈ definedTypes := by decide
  have hdef : ∀ u ∈ definedTypes,
      (u ∉ typeToMySQL.map Prod.fst ↔ u ∈ [Tuple, Expression, HexNum, HexVal]) := by decide
  have hent : ∀ e ∈ typeToMySQL, TypeToMySQL e.1 = e.2 := by decide
  refine ⟨?_, ?_, by decide, by decide, fun hnd hk => hnd (hsub t hk), hdef t,
    by decide, by decide, by decide, by decide⟩
  · intro hk
    have hnone : typeToMySQL.lookup t = none := by
      rw [List.lookup_eq_none_iff]
      intro p hp
      rw [bne_iff_ne]
      exact fun hpc => hk (List.mem_map.mpr ⟨p, hp, hpc.symm⟩)
    simp [TypeToMySQL, hnone]
  · intro v hv
    exact hent (t, v) hv

/-- C8 at the undefined value `12345`: the zero pair is returned. -/
theorem TypeToMySQL_zero_or_entry_witness :
    (12345 : VType) ∉ definedTypes ∧ TypeToMySQL 12345 = (0, 0) :=
  ⟨by decide, (TypeToMySQL_zero_or_entry 12345).1 (by decide)⟩

/-! ## C9 -/

/-- C9: `AreTypesEquivalent a b` is true exactly when `a = b` or `(a, b)` is one of the ten
listed ordered pairs; in particular it is reflexive. -/
theorem AreTypesEquivalent_iff (a b : VType) :
    (AreTypesEquivalent a b = true ↔
      a = b ∨ (a, b) ∈ [(VarChar, VarBinary), (Char, Binary), (Char, Enum), (Char, Set),
        (Text, Blob), (Int8, Uint8), (Int16, Uint16), (Int24, Uint24), (Int32, Uint32),
        (Int64, Uint64)]) ∧
    AreTypesEquivalent a a = true := by
  constructor
  · simp only [AreTypesEquivalent, Bool.or_eq_true, Bool.and_eq_true, beq_iff_eq,
      List.mem_cons, List.mem_nil_iff, or_false, Prod.mk.injEq, or_assoc]
  · simp [AreTypesEquivalent]

/-- C9 at the listed pair `(Char, Enum)`, and at its reverse, which is not listed. -/
theorem AreTypesEquivalent_iff_witness :
    AreTypesEquivalent Char Enum = true ∧ ¬ (AreTypesEquivalent Enum Char = true) :=
  ⟨((AreTypesEquivalent_iff Char Enum).1).mpr (Or.inr (by decide)),
   fun h => absurd (((AreTypesEquivalent_iff Enum Char).1).mp h) (by decide)⟩

/-! ## C10 -/

/-- C10: `AreTypesEquivalent VarChar VarBinary` is true while
`AreTypesEquivalent VarBinary VarChar` is false, and for distinct `a` and `b` the two
orders are never both true. -/
theorem AreTypesEquivalent_order_matters :
    AreTypesEquivalent VarChar VarBinary = true ∧
    AreTypesEquivalent VarBinary VarChar = false ∧
    ∀ a b : VType, a ≠ b →
      ¬ (AreTypesEquivalent a b = true ∧ AreTypesEquivalent b a = true) := by
  refine ⟨by decide, by decide, ?_⟩
  have hint : ∀ x y : Int, x ≠ y →
      ¬ (AreTypesEquivalent x y = true ∧ AreTypesEquivalent y x = true) := by
    intro x y hxy
    simp only [AreTypesEquivalent, Bool.or_eq_true, Bool.and_eq_true, beq_iff_eq,
      Null, Int8, Uint8, Int16, Uint16, Int24, Uint24, Int32, Uint32, Int64, Uint64, Text,
      Blob, VarChar, VarBinary, Char, Binary, Enum, Set, Type_INT8, Type_UINT8, Type_INT16,
      Type_UINT16, Type_INT24, Type_UINT24, Type_INT32, Type_UINT32, Type_INT64, Type_UINT64,
      Type_TEXT, Type_BLOB, Type_VARCHAR, Type_VARBINARY, Type_CHAR, Type_BINARY, Type_ENUM,
      Type_SET]
    delta VType
    omega
  exact hint

/-- C10 at the distinct pair `Int8`, `Uint8`: the two orders are not both true. -/
theorem AreTypesEquivalent_order_matters_witness :
    ¬ (AreTypesEquivalent Int8 Uint8 = true ∧ AreTypesEquivalent Uint8 Int8 = true) :=
  AreTypesEquivalent_order_matters.2.2 Int8 Uint8 (by decide)

/-! ## Bit-level reading of the classification masks -/

/-- AND with a non-negative mask, bit by bit. -/
theorem land_natCast_testBit (t : Int) (m : Nat) :
    ∃ x : Nat, Int.land t (m : Int) = (x : Int) ∧
      ∀ i, x.testBit i = (t.testBit i && m.testBit i) := by
  obtain ⟨x, hx⟩ := land_natCast_nonneg t m
  refine ⟨x, hx, fun i => ?_⟩
  have h := Int.testBit_land t (m : Int) i
  rw [hx] at h
  simpa [Int.testBit] using h

/-- `t & m == v` for a value `v` inside the mask `m` says that `t` agrees with `v` on
every bit of the mask. -/
theorem land_natCast_eq_iff (t : Int) (m v : Nat) (hv : v &&& m = v) :
    Int.land t (m : Int) = (v : Int) ↔
      ∀ i, m.testBit i = true → t.testBit i = v.testBit i := by
  obtain ⟨x, hx, hbit⟩ := land_natCast_testBit t m
  rw [hx]
  constructor
  · intro h i hm
    have hxv : x = v := by exact_mod_cast h
    have hi := hbit i
    rw [hxv, hm, Bool.and_true] at hi
    exact hi.symm
  · intro h
    have hxv : x = v := by
      apply Nat.eq_of_testBit_eq
      intro i
      rw [hbit i]
      by_cases hm : m.testBit i = true
      · rw [hm, Bool.and_true]
        exact h i hm
      · have hm' : m.testBit i = false := by simpa using hm
        have hvi : v.testBit i = false := by
          have := congrArg (fun n => n.testBit i) hv
          simp only [Nat.testBit_and, hm', Bool.and_false] at this
          exact this.symm
        rw [hm', Bool.and_false, hvi]
    rw [hxv]

/-- The bits of the mask `flagIsIntegral|flagIsUnsigned = 768` are bits 8 and 9. -/
theorem testBit_768 (i : Nat) : (768 : Nat).testBit i = true ↔ i = 8 ∨ i = 9 := by
  have h : (768 : Nat) = 2 ^ 8 ||| 2 ^ 9 := by decide
  rw [h, Nat.testBit_or]
  simp only [Nat.testBit_two_pow, Bool.or_eq_true, decide_eq_true_eq]
  omega

/-- `IsIntegral` reads bit 8 of the code. -/
theorem IsIntegral_iff_bit (t : VType) : IsIntegral t = true ↔ t.testBit 8 = true := by
  have h := land_natCast_eq_iff t (2 ^ 8) (2 ^ 8) (by decide)
  simp only [Nat.testBit_two_pow, decide_eq_true_eq] at h
  have h2 : IsIntegral t = true ↔ Int.land t ((2 ^ 8 : Nat) : Int) = ((2 ^ 8 : Nat) : Int) := by
    have hv : flagIsIntegral = ((2 ^ 8 : Nat) : Int) := by decide
    unfold IsIntegral
    rw [hv, beq_iff_eq]
  rw [h2, h]
  constructor
  · intro hb
    simpa using hb 8 rfl
  · intro hb i hi
    subst hi
    simpa using hb

/-- `IsSigned` holds when bit 8 of the code is set and bit 9 is clear. -/
theorem IsSigned_iff_bits (t : VType) :
    IsSigned t = true ↔ t.testBit 8 = true ∧ t.testBit 9 = false := by
  have h := land_natCast_eq_iff t 768 256 (by decide)
  have h2 : IsSigned t = true ↔ Int.land t ((768 : Nat) : Int) = ((256 : Nat) : Int) := by
    have hl : Int.lor flagIsIntegral flagIsUnsigned = ((768 : Nat) : Int) := by decide
    have hv : flagIsIntegral = ((256 : Nat) : Int) := by decide
    unfold IsSigned
    rw [hl, hv, beq_iff_eq]
  rw [h2, h]
  constructor
  · intro hb
    have h8 := hb 8 (by decide)
    have h9 := hb 9 (by decide)
    exact ⟨by rw [h8]; decide, by rw [h9]; decide⟩
  · rintro ⟨h8, h9⟩ i hi
    rcases (testBit_768 i).mp hi with rfl | rfl
    · rw [h8]; decide
    · rw [h9]; decide

/-- `IsUnsigned` holds when bits 8 and 9 of the code are both set. -/
theorem IsUnsigned_iff_bits (t : VType) :
    IsUnsigned t = true ↔ t.testBit 8 = true ∧ t.testBit 9 = true := by
  have h := land_natCast_eq_iff t 768 768 (by decide)
  have h2 : IsUnsigned t = true ↔ Int.land t ((768 : Nat) : Int) = ((768 : Nat) : Int) := by
    have hl : Int.lor flagIsIntegral flagIsUnsigned = ((768 : Nat) : Int) := by decide
    unfold IsUnsigned
    rw [hl, beq_iff_eq]
  rw [h2, h]
  constructor
  · intro hb
    have h8 := hb 8 (by decide)
    have h9 := hb 9 (by decide)
    exact ⟨by rw [h8]; decide, by rw [h9]; decide⟩
  · rintro ⟨h8, h9⟩ i hi
    rcases (testBit_768 i).mp hi with rfl | rfl
    · rw [h8]; decide
    · rw [h9]; decide

/-! ## The equivalence relation in numerals -/

/-- `AreTypesEquivalent` spelled out on the numeric codes. -/
theorem AreTypesEquivalent_codes (x y : Int) :
    AreTypesEquivalent x y = true ↔
      x = y ∨ (x = 6165 ∧ y = 10262) ∨ (x = 6167 ∧ y = 10264) ∨ (x = 6167 ∧ y = 2074) ∨
      (x = 6167 ∧ y = 2075) ∨ (x = 6163 ∧ y = 10260) ∨ (x = 257 ∧ y = 770) ∨
      (x = 259 ∧ y = 772) ∨ (x = 261 ∧ y = 774) ∨ (x = 263 ∧ y = 776) ∨
      (x = 265 ∧ y = 778) := by
  simp only [AreTypesEquivalent, Bool.or_eq_true, Bool.and_eq_true, beq_iff_eq,
    Int8, Uint8, Int16, Uint16, Int24, Uint24, Int32, Uint32, Int64, Uint64, Text,
    Blob, VarChar, VarBinary, Char, Binary, Enum, Set, Type_INT8, Type_UINT8, Type_INT16,
    Type_UINT16, Type_INT24, Type_UINT24, Type_INT32, Type_UINT32, Type_INT64, Type_UINT64,
    Type_TEXT, Type_BLOB, Type_VARCHAR, Type_VARBINARY, Type_CHAR, Type_BINARY, Type_ENUM,
    Type_SET, or_assoc]

/-- Membership in the list of the ten ordered pairs, on the numeric codes. -/
theorem mem_pairs_codes (x y : Int) :
    (x, y) ∈ [(VarChar, VarBinary), (Char, Binary), (Char, Enum), (Char, Set),
        (Text, Blob), (Int8, Uint8), (Int16, Uint16), (Int24, Uint24), (Int32, Uint32),
        (Int64, Uint64)] ↔
      (x = 6165 ∧ y = 10262) ∨ (x = 6167 ∧ y = 10264) ∨ (x = 6167 ∧ y = 2074) ∨
      (x = 6167 ∧ y = 2075) ∨ (x = 6163 ∧ y = 10260) ∨ (x = 257 ∧ y = 770) ∨
      (x = 259 ∧ y = 772) ∨ (x = 261 ∧ y = 774) ∨ (x = 263 ∧ y = 776) ∨
      (x = 265 ∧ y = 778) := by
  simp only [List.mem_cons, List.mem_nil_iff, or_false, Prod.mk.injEq,
    Int8, Uint8, Int16, Uint16, Int24, Uint24, Int32, Uint32, Int64, Uint64, Text,
    Blob, VarChar, VarBinary, Char, Binary, Enum, Set, Type_INT8, Type_UINT8, Type_INT16,
    Type_UINT16, Type_INT24, Type_UINT24, Type_INT32, Type_UINT32, Type_INT64, Type_UINT64,
    Type_TEXT, Type_BLOB, Type_VARCHAR, Type_VARBINARY, Type_CHAR, Type_BINARY, Type_ENUM,
    Type_SET]

/-- `AreTypesEquivalent` is equality or membership in the list of ten ordered pairs. -/
theorem AreTypesEquivalent_eq_or_pair (x y : Int) :
    AreTypesEquivalent x y = true ↔
      x = y ∨ (x, y) ∈ [(VarChar, VarBinary), (Char, Binary), (Char, Enum), (Char, Set),
        (Text, Blob), (Int8, Uint8), (Int16, Uint16), (Int24, Uint24), (Int32, Uint32),
        (Int64, Uint64)] := by
  rw [AreTypesEquivalent_codes, mem_pairs_codes]

/-- No listed pair is listed in reverse, and no listed pair is a diagonal pair. -/
theorem pairs_not_reversed (x y : Int)
    (h : (x, y) ∈ [(VarChar, VarBinary), (Char, Binary), (Char, Enum), (Char, Set),
        (Text, Blob), (Int8, Uint8), (Int16, Uint16), (Int24, Uint24), (Int32, Uint32),
        (Int64, Uint64)]) :
    (y, x) ∉ [(VarChar, VarBinary), (Char, Binary), (Char, Enum), (Char, Set),
        (Text, Blob), (Int8, Uint8), (Int16, Uint16), (Int24, Uint24), (Int32, Uint32),
        (Int64, Uint64)] ∧ x ≠ y := by
  rw [mem_pairs_codes] at h
  rw [mem_pairs_codes]
  omega

/-! ## C11 -/

/-- C11 (as stated, refuted): the relation is not symmetric as shipped:
`AreTypesEquivalent VarChar VarBinary` is true and `AreTypesEquivalent VarBinary VarChar`
is false. -/
theorem AreTypesEquivalent_varchar_varbinary_differ :
    AreTypesEquivalent VarChar VarBinary = true ∧
      AreTypesEquivalent VarBinary VarChar = false ∧
      AreTypesEquivalent VarChar VarBinary ≠ AreTypesEquivalent VarBinary VarChar := by
  decide

/-- C11 (amended): `AreTypesEquivalent a b = AreTypesEquivalent b a` holds exactly when
`a = b` or neither `(a, b)` nor `(b, a)` is one of the ten listed pairs; on a listed pair
the two orders differ. -/
theorem AreTypesEquivalent_swap_iff (a b : VType) :
    (AreTypesEquivalent a b = AreTypesEquivalent b a ↔
      a = b ∨
      ((a, b) ∉ [(VarChar, VarBinary), (Char, Binary), (Char, Enum), (Char, Set),
        (Text, Blob), (Int8, Uint8), (Int16, Uint16), (Int24, Uint24), (Int32, Uint32),
        (Int64, Uint64)] ∧
       (b, a) ∉ [(VarChar, VarBinary), (Char, Binary), (Char, Enum), (Char, Set),
        (Text, Blob), (Int8, Uint8), (Int16, Uint16), (Int24, Uint24), (Int32, Uint32),
        (Int64, Uint64)])) ∧
    ((a, b) ∈ [(VarChar, VarBinary), (Char, Binary), (Char, Enum), (Char, Set),
        (Text, Blob), (Int8, Uint8), (Int16, Uint16), (Int24, Uint24), (Int32, Uint32),
        (Int64, Uint64)] →
      AreTypesEquivalent a b = true ∧ AreTypesEquivalent b a = false) := by
  have hab := AreTypesEquivalent_eq_or_pair a b
  have hba := AreTypesEquivalent_eq_or_pair b a
  have nab := pairs_not_reversed a b
  have nba := pairs_not_reversed b a
  have hbool : (AreTypesEquivalent a b = AreTypesEquivalent b a) ↔
      (AreTypesEquivalent a b = true ↔ AreTypesEquivalent b a = true) := Bool.eq_iff_iff
  have hfalse : AreTypesEquivalent b a = false ↔ ¬ (AreTypesEquivalent b a = true) := by
    simp
  have hsymm : b = a ↔ a = b := eq_comm
  rw [hbool, hfalse, hab, hba, hsymm]
  refine ⟨?_, ?_⟩
  · constructor
    · intro h
      by_cases hEq : a = b
      · exact Or.inl hEq
      · right
        constructor
        · intro p
          rcases h.mp (Or.inr p) with e | q
          · exact hEq e
          · exact (nab p).1 q
        · intro q
          rcases h.mpr (Or.inr q) with e | p
          · exact hEq e
          · exact (nba q).1 p
    · rintro (e | ⟨np, nq⟩)
      · exact ⟨fun _ => Or.inl e, fun _ => Or.inl e⟩
      · constructor
        · rintro (e | p)
          · exact Or.inl e
          · exact absurd p np
        · rintro (e | q)
          · exact Or.inl e
          · exact absurd q nq
  · intro p
    refine ⟨Or.inr p, ?_⟩
    rintro (e | q)
    · exact (nab p).2 e
    · exact (nab p).1 q

/-- C11 witness: on the listed pair `(Text, Blob)` the two orders differ. -/
theorem AreTypesEquivalent_swap_iff_witness :
    AreTypesEquivalent Text Blob = true ∧ AreTypesEquivalent Blob Text = false :=
  (AreTypesEquivalent_swap_iff Text Blob).2 (by decide)

/-! ## C12 -/

/-- C12: over the defined types the documented listing of the numeric classifications is
exact: `IsSigned` holds for INT8, INT16, INT24, INT32, INT64 only; `IsUnsigned` for UINT8,
UINT16, UINT24, UINT32, UINT64, YEAR only; `IsIntegral` for the union of the two lists;
`IsFloat` for FLOAT32, FLOAT64 only; `IsNumber` for the integral types, the float types and
DECIMAL only. -/
theorem numeric_classification_exact (t : VType) (ht : t ∈ definedTypes) :
    (IsSigned t = true ↔
      t ∈ [Type_INT8, Type_INT16, Type_INT24, Type_INT32, Type_INT64]) ∧
    (IsUnsigned t = true ↔
      t ∈ [Type_UINT8, Type_UINT16, Type_UINT24, Type_UINT32, Type_UINT64, Type_YEAR]) ∧
    (IsIntegral t = true ↔
      t ∈ [Type_INT8, Type_INT16, Type_INT24, Type_INT32, Type_INT64] ∨
      t ∈ [Type_UINT8, Type_UINT16, Type_UINT24, Type_UINT32, Type_UINT64, Type_YEAR]) ∧
    (IsIntegral t = true ↔
      t ∈ [Type_INT8, Type_UINT8, Type_INT16, Type_UINT16, Type_INT24, Type_UINT24,
           Type_INT32, Type_UINT32, Type_INT64, Type_UINT64, Type_YEAR]) ∧
    (IsFloat t = true ↔ t ∈ [Type_FLOAT32, Type_FLOAT64]) ∧
    (IsNumber t = true ↔ IsIntegral t = true ∨ IsFloat t = true ∨ t = Type_DECIMAL) ∧
    (IsNumber t = true ↔
      t ∈ [Type_INT8, Type_UINT8, Type_INT16, Type_UINT16, Type_INT24, Type_UINT24,
           Type_INT32, Type_UINT32, Type_INT64, Type_UINT64, Type_FLOAT32, Type_FLOAT64,
           Type_YEAR, Type_DECIMAL]) := by
  have hall : ∀ u ∈ definedTypes,
      (IsSigned u = true ↔
        u ∈ [Type_INT8, Type_INT16, Type_INT24, Type_INT32, Type_INT64]) ∧
      (IsUnsigned u = true ↔
        u ∈ [Type_UINT8, Type_UINT16, Type_UINT24, Type_UINT32, Type_UINT64, Type_YEAR]) ∧
      (IsIntegral u = true ↔
        u ∈ [Type_INT8, Type_INT16, Type_INT24, Type_INT32, Type_INT64] ∨
        u ∈ [Type_UINT8, Type_UINT16, Type_UINT24, Type_UINT32, Type_UINT64, Type_YEAR]) ∧
      (IsIntegral u = true ↔
        u ∈ [Type_INT8, Type_UINT8, Type_INT16, Type_UINT16, Type_INT24, Type_UINT24,
             Type_INT32, Type_UINT32, Type_INT64, Type_UINT64, Type_YEAR]) ∧
      (IsFloat u = true ↔ u ∈ [Type_FLOAT32, Type_FLOAT64]) ∧
      (IsNumber u = true ↔ IsIntegral u = true ∨ IsFloat u = true ∨ u = Type_DECIMAL) ∧
      (IsNumber u = true ↔
        u ∈ [Type_INT8, Type_UINT8, Type_INT16, Type_UINT16, Type_INT24, Type_UINT24,
             Type_INT32, Type_UINT32, Type_INT64, Type_UINT64, Type_FLOAT32, Type_FLOAT64,
             Type_YEAR, Type_DECIMAL]) := by
    decide
  exact hall t ht

/-- C12 witness: `Decimal` is a number although it carries neither the integral nor the
float flag bit. -/
theorem numeric_classification_exact_witness :
    IsNumber Decimal = true ∧ Int.land Decimal flagIsIntegral = 0 ∧
      Int.land Decimal flagIsFloat = 0 ∧ IsIntegral Decimal = false ∧
      IsFloat Decimal = false :=
  ⟨((numeric_classification_exact Decimal (by decide)).2.2.2.2.2.1).mpr
      (Or.inr (Or.inr rfl)),
   by decide, by decide, by decide, by decide⟩

/-! ## C13 -/

/-- C13: over the defined types the documented listing of the non-numeric classifications
is exact: `IsQuoted` holds for TIMESTAMP, DATE, TIME, DATETIME, TEXT, BLOB, VARCHAR,
VARBINARY, CHAR, BINARY, ENUM, SET, GEOMETRY, JSON only (BIT has the quoted flag bit in its
code, yet `IsQuoted Bit` is false); `IsText` for TEXT, VARCHAR, CHAR, HEXNUM, HEXVAL only;
`IsBinary` for BLOB, VARBINARY, BINARY only; `IsDate` for TIMESTAMP, DATE, TIME, DATETIME
only; `IsNull` for NULL_TYPE only. -/
theorem other_classification_exact (t : VType) (ht : t ∈ definedTypes) :
    (IsQuoted t = true ↔
      t ∈ [Type_TIMESTAMP, Type_DATE, Type_TIME, Type_DATETIME, Type_TEXT, Type_BLOB,
           Type_VARCHAR, Type_VARBINARY, Type_CHAR, Type_BINARY, Type_ENUM, Type_SET,
           Type_GEOMETRY, Type_JSON]) ∧
    (IsText t = true ↔
      t ∈ [Type_TEXT, Type_VARCHAR, Type_CHAR, Type_HEXNUM, Type_HEXVAL]) ∧
    (IsBinary t = true ↔ t ∈ [Type_BLOB, Type_VARBINARY, Type_BINARY]) ∧
    (IsDate t = true ↔ t ∈ [Type_TIMESTAMP, Type_DATE, Type_TIME, Type_DATETIME]) ∧
    (IsNull t = true ↔ t = Type_NULL_TYPE) ∧
    Int.land Bit flagIsQuoted = flagIsQuoted ∧ IsQuoted Bit = false := by
  have hall : ∀ u ∈ definedTypes,
      (IsQuoted u = true ↔
        u ∈ [Type_TIMESTAMP, Type_DATE, Type_TIME, Type_DATETIME, Type_TEXT, Type_BLOB,
             Type_VARCHAR, Type_VARBINARY, Type_CHAR, Type_BINARY, Type_ENUM, Type_SET,
             Type_GEOMETRY, Type_JSON]) ∧
      (IsText u = true ↔
        u ∈ [Type_TEXT, Type_VARCHAR, Type_CHAR, Type_HEXNUM, Type_HEXVAL]) ∧
      (IsBinary u = true ↔ u ∈ [Type_BLOB, Type_VARBINARY, Type_BINARY]) ∧
      (IsDate u = true ↔ u ∈ [Type_TIMESTAMP, Type_DATE, Type_TIME, Type_DATETIME]) ∧
      (IsNull u = true ↔ u = Type_NULL_TYPE) := by
    decide
  obtain ⟨h1, h2, h3, h4, h5⟩ := hall t ht
  exact ⟨h1, h2, h3, h4, h5, by decide, by decide⟩

/-- C13 witness: `Bit` is a defined type that is neither quoted nor text. -/
theorem other_classification_exact_witness :
    Bit ∈ definedTypes ∧ ¬ (IsQuoted Bit = true) ∧ ¬ (IsText Bit = true) :=
  ⟨by decide,
   fun h => absurd (((other_classification_exact Bit (by decide)).1).mp h) (by decide),
   fun h => absurd (((other_classification_exact Bit (by decide)).2.1).mp h) (by decide)⟩

/-! ## C14 -/

/-- C14 (as stated, refuted): `IsIntegral Year` is true, not false: the code of `Year`,
785, has the integral flag bit 256 set. -/
theorem IsIntegral_year_true :
    Year = 785 ∧ Int.land Year flagIsIntegral = flagIsIntegral ∧ IsIntegral Year = true ∧
      IsIntegral Year ≠ false := by
  decide

/-- C14 (amended): `Year` is unsigned and integral: `IsUnsigned Year` is true,
`IsSigned Year` is false and `IsIntegral Year` is true. -/
theorem year_unsigned_integral :
    IsUnsigned Year = true ∧ IsSigned Year = false ∧ IsIntegral Year = true := by
  decide

/-! ## C15 -/

/-- C15: for every `Type` value `t`, exactly one of `IsSigned t`, `IsUnsigned t`,
`¬ IsIntegral t` holds; so `IsSigned` and `IsUnsigned` exclude each other, `IsIntegral t`
is `IsSigned t` or `IsUnsigned t`, and for `Decimal` and `Text` both are false, so
`IsUnsigned` is not the negation of `IsSigned`. -/
theorem signed_unsigned_trichotomy (t : VType) :
    ((IsSigned t = true ∧ IsUnsigned t = false ∧ IsIntegral t = true) ∨
     (IsSigned t = false ∧ IsUnsigned t = true ∧ IsIntegral t = true) ∨
     (IsSigned t = false ∧ IsUnsigned t = false ∧ IsIntegral t = false)) ∧
    ¬ (IsSigned t = true ∧ IsUnsigned t = true) ∧
    (IsIntegral t = true ↔ IsSigned t = true ∨ IsUnsigned t = true) ∧
    (IsSigned Decimal = false ∧ IsUnsigned Decimal = false) ∧
    (IsSigned Text = false ∧ IsUnsigned Text = false) ∧
    IsUnsigned Decimal ≠ !IsSigned Decimal := by
  have hi := IsIntegral_iff_bit t
  have hs := IsSigned_iff_bits t
  have hu := IsUnsigned_iff_bits t
  have key : (IsSigned t = true ∧ IsUnsigned t = false ∧ IsIntegral t = true) ∨
      (IsSigned t = false ∧ IsUnsigned t = true ∧ IsIntegral t = true) ∨
      (IsSigned t = false ∧ IsUnsigned t = false ∧ IsIntegral t = false) := by
    cases h8 : t.testBit 8 <;> cases h9 : t.testBit 9 <;>
      cases hI : IsIntegral t <;> cases hS : IsSigned t <;> cases hU : IsUnsigned t <;>
      simp_all
  refine ⟨key, ?_, ?_, by decide, by decide, by decide⟩
  · rintro ⟨h1, h2⟩
    rcases key with ⟨_, h, _⟩ | ⟨h, _, _⟩ | ⟨h, _, _⟩ <;> simp_all
  · rcases key with ⟨h1, h2, h3⟩ | ⟨h1, h2, h3⟩ | ⟨h1, h2, h3⟩ <;> simp [h1, h2, h3]

/-- C15 witness at the undefined value `-1` (every bit set): it is unsigned, not signed,
and integral. -/
theorem signed_unsigned_trichotomy_witness :
    IsSigned (-1) = false ∧ IsUnsigned (-1) = true ∧ IsIntegral (-1) = true := by
  have hu : IsUnsigned (-1) = true := (IsUnsigned_iff_bits (-1)).mpr ⟨by decide, by decide⟩
  rcases (signed_unsigned_trichotomy (-1)).1 with ⟨_, h, _⟩ | h | ⟨_, h, _⟩
  · rw [hu] at h; exact absurd h (by decide)
  · exact h
  · rw [hu] at h; exact absurd h (by decide)

/-! ## Clearing the low byte -/

/-- For a non-negative code, `code & ^0xFF` clears the low eight bits. -/
theorem land_lnot_255 (t : Int) (h : 0 ≤ t) :
    Int.land t (Int.lnot 255) = (((t.toNat >>> 8) <<< 8 : Nat) : Int) := by
  obtain ⟨n, rfl⟩ := Int.eq_ofNat_of_zero_le h
  have hl : Int.land (n : Int) (Int.lnot 255) = ((Nat.ldiff n 255 : Nat) : Int) := rfl
  rw [hl, Int.toNat_ofNat]
  congr 1
  apply Nat.eq_of_testBit_eq
  intro i
  have h255 : (255 : Nat).testBit i = decide (i < 8) := Nat.testBit_two_pow_sub_one 8 i
  rw [Nat.testBit_ldiff, h255, Nat.testBit_shiftLeft, Nat.testBit_shiftRight]
  by_cases hi : i < 8
  · have hge : ¬ (i ≥ 8) := by omega
    simp [hi, hge]
  · have hge : i ≥ 8 := by omega
    have hadd : 8 + (i - 8) = i := by omega
    simp [hi, hge, hadd]

/-! ## C16 -/

/-- C16 (as stated, refuted): `Type_INT8` has ordinal 1 and the single flag
`Flag_ISINTEGRAL`, so `(ordinal << 8) | flagBits` is `256 | 256 = 256`, while the code of
`Type_INT8` is 257. -/
theorem int8_code_not_shifted_ordinal :
    (Type_INT8, 1, [Flag_ISINTEGRAL]) ∈ typeProperties ∧ Type_INT8 = 257 ∧
      Int.lor ((1 : Int) <<< (8 : Int)) ([Flag_ISINTEGRAL].foldl Int.lor 0) = 256 ∧
      Type_INT8 ≠ Int.lor ((1 : Int) <<< (8 : Int)) ([Flag_ISINTEGRAL].foldl Int.lor 0) := by
  decide

/-- C16 (amended): every defined `Type` constant's code equals `ordinal | flagBits`, the
ordinal of its "Properties:" comment (0 for `Type_NULL_TYPE`) unshifted, below 256, and
`flagBits` the union of its classification flags, each one of the six `Flag_*` constants. -/
theorem code_eq_ordinal_lor_flags :
    typeProperties.map Prod.fst = definedTypes ∧
    ∀ e ∈ typeProperties,
      0 ≤ e.2.1 ∧ e.2.1 < 256 ∧
      (∀ fl ∈ e.2.2, fl ∈ [Flag_ISINTEGRAL, Flag_ISUNSIGNED, Flag_ISFLOAT, Flag_ISQUOTED, Flag_ISTEXT,
          Flag_ISBINARY]) ∧
      e.1 = Int.lor e.2.1 (e.2.2.foldl Int.lor 0) := by
  refine ⟨by decide, by decide⟩

/-- C16 witness: `Type_YEAR = 17 | 256 | 512`. -/
theorem code_eq_ordinal_lor_flags_witness :
    Type_YEAR = Int.lor 17 ([Flag_ISINTEGRAL, Flag_ISUNSIGNED].foldl Int.lor 0) :=
  (code_eq_ordinal_lor_flags.2 (Type_YEAR, 17, [Flag_ISINTEGRAL, Flag_ISUNSIGNED])
    (by decide)).2.2.2

/-! ## C17 -/

/-- C17: for every defined `Type` constant the low 8 bits of the code are its ordinal, the
ordinals are pairwise distinct values in `0..33`, the remaining bits `code & ^0xFF` are the
union of its flags, each one of the six `Flag_*` constants (256, 512, 1024, 2048, 4096,
8192); so the code is ordinal plus flag bits, distinct constants have distinct codes, and
masking the code with the six flag bits gives back exactly the flags of the constant. -/
theorem flags_recoverable_from_code :
    typeProperties.map Prod.fst = definedTypes ∧
    definedTypes.Nodup ∧
    (typeProperties.map (fun e => e.2.1)).Nodup ∧
    [Flag_ISINTEGRAL, Flag_ISUNSIGNED, Flag_ISFLOAT, Flag_ISQUOTED, Flag_ISTEXT,
          Flag_ISBINARY] = [256, 512, 1024, 2048, 4096, 8192] ∧
    ∀ e ∈ typeProperties,
      Int.land e.1 255 = e.2.1 ∧
      0 ≤ e.2.1 ∧ e.2.1 ≤ 33 ∧
      (∀ fl ∈ e.2.2, fl ∈ [Flag_ISINTEGRAL, Flag_ISUNSIGNED, Flag_ISFLOAT, Flag_ISQUOTED, Flag_ISTEXT,
          Flag_ISBINARY]) ∧
      e.2.2.Nodup ∧
      Int.land e.1 (Int.lnot 255) = e.2.2.foldl Int.lor 0 ∧
      e.2.2.foldl Int.lor 0 = e.2.2.sum ∧
      e.1 = e.2.1 + e.2.2.sum ∧
      Int.land e.1 ([Flag_ISINTEGRAL, Flag_ISUNSIGNED, Flag_ISFLOAT, Flag_ISQUOTED, Flag_ISTEXT,
          Flag_ISBINARY].foldl Int.lor 0) = e.2.2.foldl Int.lor 0 ∧
      (∀ fl ∈ [Flag_ISINTEGRAL, Flag_ISUNSIGNED, Flag_ISFLOAT, Flag_ISQUOTED, Flag_ISTEXT,
          Flag_ISBINARY], Int.land e.1 fl = fl ↔ fl ∈ e.2.2) := by
  have hdec : ∀ e ∈ typeProperties,
      0 ≤ e.1 ∧
      (((e.1.toNat >>> 8) <<< 8 : Nat) : Int) = e.2.2.foldl Int.lor 0 ∧
      Int.land e.1 255 = e.2.1 ∧
      0 ≤ e.2.1 ∧ e.2.1 ≤ 33 ∧
      (∀ fl ∈ e.2.2, fl ∈ [Flag_ISINTEGRAL, Flag_ISUNSIGNED, Flag_ISFLOAT, Flag_ISQUOTED, Flag_ISTEXT,
          Flag_ISBINARY]) ∧
      e.2.2.Nodup ∧
      e.2.2.foldl Int.lor 0 = e.2.2.sum ∧
      e.1 = e.2.1 + e.2.2.sum ∧
      Int.land e.1 ([Flag_ISINTEGRAL, Flag_ISUNSIGNED, Flag_ISFLOAT, Flag_ISQUOTED, Flag_ISTEXT,
          Flag_ISBINARY].foldl Int.lor 0) = e.2.2.foldl Int.lor 0 ∧
      (∀ fl ∈ [Flag_ISINTEGRAL, Flag_ISUNSIGNED, Flag_ISFLOAT, Flag_ISQUOTED, Flag_ISTEXT,
          Flag_ISBINARY], Int.land e.1 fl = fl ↔ fl ∈ e.2.2) := by
    decide
  refine ⟨by decide, by decide, by decide, by decide, ?_⟩
  intro e he
  obtain ⟨h0, hsh, h1, h2, h3, h4, h5, h6, h7, h8, h9⟩ := hdec e he
  refine ⟨h1, h2, h3, h4, h5, ?_, h6, h7, h8, h9⟩
  rw [land_lnot_255 e.1 h0, hsh]

/-- C17 witness: for `Type_BLOB = 10260` the low byte is 20 and the rest is
`2048 + 8192`, the quoted and binary flags. -/
theorem flags_recoverable_from_code_witness :
    Int.land Type_BLOB 255 = 20 ∧ Int.land Type_BLOB (Int.lnot 255) = 2048 + 8192 := by
  have h := flags_recoverable_from_code.2.2.2.2
    (Type_BLOB, 20, [Flag_ISQUOTED, Flag_ISBINARY]) (by decide)
  exact ⟨h.1, h.2.2.2.2.2.1.trans (by decide)⟩

/-! ## Map reads, in general -/

/-- A map read misses exactly on the keys that are absent. -/
theorem lookup_eq_none_iff_not_mem_keys {β : Type} (l : List (Int × β)) (k : Int) :
    l.lookup k = none ↔ k ∉ l.map Prod.fst := by
  rw [List.lookup_eq_none_iff]
  constructor
  · intro h hk
    obtain ⟨q, hq, hqk⟩ := List.mem_map.mp hk
    have hne := h q hq
    rw [bne_iff_ne] at hne
    exact hne hqk.symm
  · intro h q hq
    rw [bne_iff_ne]
    exact fun hqk => h (List.mem_map.mpr ⟨q, hq, hqk.symm⟩)

/-- A map read that hits returns the value of an entry of the table. -/
theorem mem_of_lookup_eq_some {β : Type} (l : List (Int × β)) (k : Int) (v : β)
    (h : l.lookup k = some v) : (k, v) ∈ l := by
  induction l with
  | nil => simp at h
  | cons hd tl ih =>
    obtain ⟨k', v'⟩ := hd
    by_cases hk : k = k'
    · subst hk
      simp only [List.lookup_cons, beq_self_eq_true, Option.some.injEq] at h
      subst h
      exact List.mem_cons_self _ _
    · have hb : (k == k') = false := by simpa using hk
      simp only [List.lookup_cons, hb] at h
      exact List.mem_cons_of_mem _ (ih h)

/-! ## C18 -/

/-- C18: `Type_name` and `Type_value` are mutually inverse: each entry of one is found,
reversed, by a read of the other; the keys of `Type_name` are exactly the 34 defined
constants; hence for every defined type `String()` returns a non-empty name whose
`Type_value` is the type, and distinct defined types have distinct names. -/
theorem Type_name_value_inverse :
    (∀ e ∈ Type_name, Type_value.lookup e.2 = some e.1) ∧
    (∀ e ∈ Type_value, Type_name.lookup e.2 = some e.1) ∧
    Type_name.map Prod.fst = definedTypes ∧
    definedTypes.length = 34 ∧
    definedTypes.Nodup ∧
    (Type_value.map Prod.fst).Nodup ∧
    (∀ t ∈ definedTypes,
      Type_name.lookup t = some (VType.String t) ∧
      VType.String t ≠ "" ∧ Type_value.lookup (VType.String t) = some t) ∧
    (∀ t₁ ∈ definedTypes, ∀ t₂ ∈ definedTypes,
      VType.String t₁ = VType.String t₂ → t₁ = t₂) := by
  refine ⟨by decide, by decide, by decide, by decide, by decide, by decide, by decide, ?_⟩
  have hback : ∀ t ∈ definedTypes, Type_value.lookup (VType.String t) = some t := by decide
  intro t₁ h₁ t₂ h₂ hname
  have e₁ := hback t₁ h₁
  have e₂ := hback t₂ h₂
  rw [hname, e₂] at e₁
  exact (Option.some.inj e₁).symm

/-- C18 witness: the name of `Type_VARBINARY` and its way back. -/
theorem Type_name_value_inverse_witness :
    VType.String Type_VARBINARY = "VARBINARY" ∧
      Type_value.lookup (VType.String Type_VARBINARY) = some Type_VARBINARY :=
  ⟨by decide, (Type_name_value_inverse.2.2.2.2.2.2.1 Type_VARBINARY (by decide)).2.2⟩

/-! ## C19 -/

/-- C19 (as stated, refuted): `12345` is not a defined constant, and `String()` signals
nothing for it: the read of `Type_name` misses and the empty string is returned. -/
theorem String_undefined_returns_empty :
    (12345 : VType) ∉ definedTypes ∧ Type_name.lookup 12345 = none ∧
      VType.String 12345 = "" := by
  decide

/-- C19 (amended): the name lookup is total: for every `Type` value `x` that is not a
defined constant `x.String()` returns the empty string, and for every defined constant it
returns a non-empty name, so the empty string is returned for the undefined values only. -/
theorem String_empty_iff_undefined (x : VType) :
    (x ∉ definedTypes → VType.String x = "") ∧
    (x ∈ definedTypes → VType.String x ≠ "") ∧
    (VType.String x = "" ↔ x ∉ definedTypes) := by
  have hkeys : Type_name.map Prod.fst = definedTypes := by decide
  have hdef : ∀ t ∈ definedTypes, VType.String t ≠ "" := by decide
  have hundef : x ∉ definedTypes → VType.String x = "" := by
    intro hx
    have hnone : Type_name.lookup x = none := by
      rw [lookup_eq_none_iff_not_mem_keys, hkeys]
      exact hx
    simp [VType.String, hnone]
  refine ⟨hundef, hdef x, ?_⟩
  constructor
  · intro hs hx
    exact hdef x hx hs
  · exact hundef

/-- C19 witness at the undefined value `1` (an ordinal with no flag bits). -/
theorem String_empty_iff_undefined_witness :
    (1 : VType) ∉ definedTypes ∧ VType.String 1 = "" :=
  ⟨by decide, (String_empty_iff_undefined 1).1 (by decide)⟩

/-! ## What decoding can return -/

/-- The result of `modifyType` is its argument or one of the eleven refinements written in
the switch. -/
theorem modifyType_eq_or_refinement (typ : VType) (f : Int) :
    modifyType typ f = typ ∨
      (typ, modifyType typ f) ∈ [(Int8, Uint8), (Int16, Uint16), (Int32, Uint32), (Int64, Uint64), (Int24, Uint24),
        (Text, Blob), (VarChar, VarBinary), (Char, Binary), (Char, Enum), (Char, Set),
        (Year, VarBinary)] := by
  by_cases hcase : typ ∈ [Int8, Int16, Int24, Int32, Int64, Text, VarChar, Char, Year]
  · simp only [List.mem_cons, List.mem_nil_iff, or_false] at hcase
    rcases hcase with rfl | rfl | rfl | rfl | rfl | rfl | rfl | rfl | rfl
    · rw [(modifyType_signed f).1]
      cases f.testBit 5 <;> decide
    · rw [(modifyType_signed f).2.1]
      cases f.testBit 5 <;> decide
    · rw [(modifyType_signed f).2.2.1]
      cases f.testBit 5 <;> decide
    · rw [(modifyType_signed f).2.2.2.1]
      cases f.testBit 5 <;> decide
    · rw [(modifyType_signed f).2.2.2.2]
      cases f.testBit 5 <;> decide
    · rw [(modifyType_text_varchar f).1]
      cases f.testBit 7 <;> decide
    · rw [(modifyType_text_varchar f).2]
      cases f.testBit 7 <;> decide
    · rw [modifyType_char f]
      cases f.testBit 7 <;> cases f.testBit 8 <;> cases f.testBit 11 <;> decide
    · rw [modifyType_year f]
      cases f.testBit 7 <;> decide
  · exact Or.inl (modifyType_other typ f hcase)

/-- Every base of `mysqlToType`, and every refinement of such a base, is a key of
`typeToMySQL`. -/
theorem bases_and_refinements_are_keys :
    ∀ e ∈ mysqlToType,
      e.2 ∈ typeToMySQL.map Prod.fst ∧
      ∀ r ∈ [(Int8, Uint8), (Int16, Uint16), (Int32, Uint32), (Int64, Uint64), (Int24, Uint24),
        (Text, Blob), (VarChar, VarBinary), (Char, Binary), (Char, Enum), (Char, Set),
        (Year, VarBinary)],
        r.1 = e.2 → r.2 ∈ typeToMySQL.map Prod.fst := by
  decide

/-- Every key of `typeToMySQL` decodes back to itself. -/
theorem decode_encode_key :
    ∀ t ∈ typeToMySQL.map Prod.fst,
      MySQLToType (TypeToMySQL t).1 (TypeToMySQL t).2 = (t, none) := by
  decide

/-! ## C20 -/

/-- C20: whenever `MySQLToType c f` succeeds with type `t`, `t` is one of the 30 keys of
`typeToMySQL` (so never `Tuple`, `Expression`, `HexNum` or `HexVal`) and decoding the
canonical pair `TypeToMySQL t` gives `t` again with a nil error. -/
theorem decode_result_reencodable (c f : Int) (t : VType)
    (h : MySQLToType c f = (t, none)) :
    t ∈ typeToMySQL.map Prod.fst ∧
    t ∉ [Tuple, Expression, HexNum, HexVal] ∧
    MySQLToType (TypeToMySQL t).1 (TypeToMySQL t).2 = (t, none) ∧
    MySQLToType (TypeToMySQL (MySQLToType c f).1).1 (TypeToMySQL (MySQLToType c f).1).2 =
      MySQLToType c f := by
  have hkey : t ∈ typeToMySQL.map Prod.fst := by
    cases hl : mysqlToType.lookup c with
    | none =>
      simp [MySQLToType, hl] at h
    | some base =>
      rw [MySQLToType_of_lookup c f base hl] at h
      have ht : modifyType base f = t := congrArg Prod.fst h
      have hmem := mem_of_lookup_eq_some mysqlToType c base hl
      have hb := bases_and_refinements_are_keys (c, base) hmem
      rcases modifyType_eq_or_refinement base f with hsame | href
      · rw [← ht, hsame]
        exact hb.1
      · rw [← ht]
        exact hb.2 (base, modifyType base f) href rfl
  have hnot : ∀ k ∈ typeToMySQL.map Prod.fst, k ∉ [Tuple, Expression, HexNum, HexVal] := by
    decide
  have hround := decode_encode_key t hkey
  refine ⟨hkey, hnot t hkey, hround, ?_⟩
  rw [h]
  exact hround

/-- C20 witness: the alias code 249 with the binary bit and a stray bit decodes to `Blob`,
whose canonical pair `(252, 128)` decodes to `Blob` again. -/
theorem decode_result_reencodable_witness :
    MySQLToType 249 (128 + 1) = (Blob, none) ∧ TypeToMySQL Blob = (252, 128) ∧
      MySQLToType (TypeToMySQL Blob).1 (TypeToMySQL Blob).2 = (Blob, none) :=
  ⟨by decide, by decide,
   (decode_result_reencodable 249 (128 + 1) Blob (by decide)).2.2.1⟩

/-! ## The pair list against the refinements of `modifyType` -/

/-- Each listed pair is a refinement that some flags value produces, from a base other
than `Year`; one of the four single-flag values suffices. -/
theorem pairs_are_refinements :
    ∀ p ∈ [(VarChar, VarBinary), (Char, Binary), (Char, Enum), (Char, Set),
        (Text, Blob), (Int8, Uint8), (Int16, Uint16), (Int24, Uint24), (Int32, Uint32),
        (Int64, Uint64)],
      p.1 ≠ Year ∧ ∃ f ∈ [mysqlUnsigned, mysqlBinary, mysqlEnum, mysqlSet],
        modifyType p.1 f = p.2 := by
  decide

/-- Each refinement written in `modifyType`, other than the one of `Year`, is a listed
pair. -/
theorem refinements_are_pairs :
    ∀ r ∈ [(Int8, Uint8), (Int16, Uint16), (Int32, Uint32), (Int64, Uint64), (Int24, Uint24),
        (Text, Blob), (VarChar, VarBinary), (Char, Binary), (Char, Enum), (Char, Set),
        (Year, VarBinary)],
      r.1 ≠ Year → r ∈ [(VarChar, VarBinary), (Char, Binary), (Char, Enum), (Char, Set),
        (Text, Blob), (Int8, Uint8), (Int16, Uint16), (Int24, Uint24), (Int32, Uint32),
        (Int64, Uint64)] := by
  decide

/-- A refinement of a base other than `Year` is equivalent to the base. -/
theorem AreTypesEquivalent_modifyType (typ : VType) (f : Int) (hy : typ ≠ Year) :
    AreTypesEquivalent typ (modifyType typ f) = true := by
  rw [AreTypesEquivalent_eq_or_pair]
  rcases modifyType_eq_or_refinement typ f with hsame | href
  · exact Or.inl hsame.symm
  · exact Or.inr (refinements_are_pairs (typ, modifyType typ f) href hy)

/-- In `mysqlToType` only code 13 has base `Year`, and no flags leave every base as it is. -/
theorem mysqlToType_year_only_13 :
    ∀ e ∈ mysqlToType, (e.1 ≠ 13 → e.2 ≠ Year) ∧ modifyType e.2 0 = e.2 := by
  decide

/-! ## C21 -/

/-- C21: `AreTypesEquivalent a b` is true exactly when `a = b`, or `a` is not `Year` and
some flags value `f` gives `modifyType a f = b` (one of the four single-flag values always
suffices); so for every supported wire code other than 13 the type decoded with no flags is
equivalent to the type decoded with any flags, while `AreTypesEquivalent Year VarBinary` is
false although `MySQLToType 13 128` is `VarBinary`. -/
theorem AreTypesEquivalent_iff_refinement (a b : VType) :
    (AreTypesEquivalent a b = true ↔
      a = b ∨ (a ≠ Year ∧ ∃ f : Int, modifyType a f = b)) ∧
    (AreTypesEquivalent a b = true ↔
      a = b ∨ (a ≠ Year ∧ ∃ f ∈ [mysqlUnsigned, mysqlBinary, mysqlEnum, mysqlSet],
        modifyType a f = b)) ∧
    (∀ c f : Int, c ∈ mysqlToType.map Prod.fst → c ≠ 13 →
      (MySQLToType c 0).2 = none ∧ (MySQLToType c f).2 = none ∧
      AreTypesEquivalent (MySQLToType c 0).1 (MySQLToType c f).1 = true) ∧
    AreTypesEquivalent Year VarBinary = false ∧
    MySQLToType 13 128 = (VarBinary, none) ∧
    MySQLToType 13 0 = (Year, none) := by
  have hfwd : AreTypesEquivalent a b = true →
      a = b ∨ (a ≠ Year ∧ ∃ f ∈ [mysqlUnsigned, mysqlBinary, mysqlEnum, mysqlSet],
        modifyType a f = b) := by
    intro h
    rcases (AreTypesEquivalent_eq_or_pair a b).mp h with e | hp
    · exact Or.inl e
    · exact Or.inr (pairs_are_refinements (a, b) hp)
  have hback : (a = b ∨ (a ≠ Year ∧ ∃ f : Int, modifyType a f = b)) →
      AreTypesEquivalent a b = true := by
    rintro (e | ⟨hy, f, hf⟩)
    · exact (AreTypesEquivalent_eq_or_pair a b).mpr (Or.inl e)
    · rw [← hf]
      exact AreTypesEquivalent_modifyType a f hy
  refine ⟨⟨?_, hback⟩, ⟨hfwd, ?_⟩, ?_, by decide, by decide, by decide⟩
  · intro h
    rcases hfwd h with e | ⟨hy, f, _, hf⟩
    · exact Or.inl e
    · exact Or.inr ⟨hy, f, hf⟩
  · rintro (e | ⟨hy, f, _, hf⟩)
    · exact hback (Or.inl e)
    · exact hback (Or.inr ⟨hy, f, hf⟩)
  · intro c f hc h13
    cases hl : mysqlToType.lookup c with
    | none =>
      exact absurd hc ((lookup_eq_none_iff_not_mem_keys mysqlToType c).mp hl)
    | some base =>
      have hmem := mem_of_lookup_eq_some mysqlToType c base hl
      have hrow := mysqlToType_year_only_13 (c, base) hmem
      rw [MySQLToType_of_lookup c 0 base hl, MySQLToType_of_lookup c f base hl, hrow.2]
      exact ⟨rfl, rfl, AreTypesEquivalent_modifyType base f (hrow.1 h13)⟩

/-- C21 witness: the alias code 251 (base `Text`) decoded with no flags and with every bit
set gives equivalent types. -/
theorem AreTypesEquivalent_iff_refinement_witness :
    AreTypesEquivalent (MySQLToType 251 0).1 (MySQLToType 251 (-1)).1 = true :=
  ((AreTypesEquivalent_iff_refinement 0 0).2.2.1 251 (-1) (by decide) (by decide)).2.2

/-! ## Flags reduced to the four bits that `modifyType` reads -/

/-- Flags that agree on bits 5, 7, 8 and 11 are refined alike. -/
theorem modifyType_congr_bits (typ : VType) (f g : Int)
    (h5 : g.testBit 5 = f.testBit 5) (h7 : g.testBit 7 = f.testBit 7)
    (h8 : g.testBit 8 = f.testBit 8) (h11 : g.testBit 11 = f.testBit 11) :
    modifyType typ g = modifyType typ f := by
  rw [modifyType_bits typ g, modifyType_bits typ f, h5, h7, h8, h11]

/-- Every flags value agrees on bits 5, 7, 8 and 11 with one of the sixteen sums of
`mysqlUnsigned`, `mysqlBinary`, `mysqlEnum` and `mysqlSet`. -/
theorem exists_flags_same_bits (f : Int) :
    ∃ g ∈ ([0, 32, 128, 160, 256, 288, 384, 416, 2048, 2080, 2176, 2208, 2304, 2336, 2432,
        2464] : List Int),
      g.testBit 5 = f.testBit 5 ∧ g.testBit 7 = f.testBit 7 ∧
      g.testBit 8 = f.testBit 8 ∧ g.testBit 11 = f.testBit 11 := by
  cases f.testBit 5 <;> cases f.testBit 7 <;> cases f.testBit 8 <;> cases f.testBit 11
  · exact ⟨0, by decide, by decide, by decide, by decide, by decide⟩
  · exact ⟨2048, by decide, by decide, by decide, by decide, by decide⟩
  · exact ⟨256, by decide, by decide, by decide, by decide, by decide⟩
  · exact ⟨2304, by decide, by decide, by decide, by decide, by decide⟩
  · exact ⟨128, by decide, by decide, by decide, by decide, by decide⟩
  · exact ⟨2176, by decide, by decide, by decide, by decide, by decide⟩
  · exact ⟨384, by decide, by decide, by decide, by decide, by decide⟩
  · exact ⟨2432, by decide, by decide, by decide, by decide, by decide⟩
  · exact ⟨32, by decide, by decide, by decide, by decide, by decide⟩
  · exact ⟨2080, by decide, by decide, by decide, by decide, by decide⟩
  · exact ⟨288, by decide, by decide, by decide, by decide, by decide⟩
  · exact ⟨2336, by decide, by decide, by decide, by decide, by decide⟩
  · exact ⟨160, by decide, by decide, by decide, by decide, by decide⟩
  · exact ⟨2208, by decide, by decide, by decide, by decide, by decide⟩
  · exact ⟨416, by decide, by decide, by decide, by decide, by decide⟩
  · exact ⟨2464, by decide, by decide, by decide, by decide, by decide⟩

/-- The classification of what each table entry decodes to, for each of the sixteen flag
sums, against the bits of the flags. -/
theorem decode_classification_table :
    ∀ e ∈ mysqlToType,
      ∀ g ∈ ([0, 32, 128, 160, 256, 288, 384, 416, 2048, 2080, 2176, 2208, 2304, 2336, 2432,
        2464] : List Int),
        (IsSigned (modifyType e.2 g) = true → g.testBit 5 = false) ∧
        (IsUnsigned (modifyType e.2 g) = true → g.testBit 5 = true ∨ e.1 = 13) ∧
        (IsBinary (modifyType e.2 g) = true → g.testBit 7 = true) ∧
        (IsText (modifyType e.2 g) = true → g.testBit 7 = false) := by
  decide

/-! ## C22 -/

/-- C22: whenever `MySQLToType c f` succeeds with type `t`: if `t` is signed the unsigned
bit (32) of `f` is clear; if `t` is unsigned the unsigned bit of `f` is set or `c = 13`;
if `t` is binary the binary bit (128) of `f` is set; if `t` is text the binary bit of `f`
is clear. -/
theorem decoded_classification_agrees (c f : Int) (t : VType)
    (h : MySQLToType c f = (t, none)) :
    (IsSigned t = true → Int.land f mysqlUnsigned = 0) ∧
    (IsUnsigned t = true → Int.land f mysqlUnsigned ≠ 0 ∨ c = 13) ∧
    (IsBinary t = true → Int.land f mysqlBinary ≠ 0) ∧
    (IsText t = true → Int.land f mysqlBinary = 0) := by
  cases hl : mysqlToType.lookup c with
  | none =>
    simp [MySQLToType, hl] at h
  | some base =>
    rw [MySQLToType_of_lookup c f base hl] at h
    have ht : modifyType base f = t := congrArg Prod.fst h
    have hmem := mem_of_lookup_eq_some mysqlToType c base hl
    obtain ⟨g, hg, h5, h7, h8, h11⟩ := exists_flags_same_bits f
    have hrow := decode_classification_table (c, base) hmem g hg
    rw [modifyType_congr_bits base f g h5 h7 h8 h11, ht, h5, h7] at hrow
    obtain ⟨r1, r2, r3, r4⟩ := hrow
    have hu := unsigned_test_iff f
    have hb := binary_test_iff f
    refine ⟨?_, ?_, ?_, ?_⟩
    · intro hs
      by_contra hne
      have := hu.mp hne
      rw [r1 hs] at this
      exact Bool.noConfusion this
    · intro hs
      rcases r2 hs with hbit | h13
      · exact Or.inl (hu.mpr hbit)
      · exact Or.inr h13
    · intro hs
      exact hb.mpr (r3 hs)
    · intro hs
      by_contra hne
      have := hb.mp hne
      rw [r4 hs] at this
      exact Bool.noConfusion this

/-- C22 witness: code 1 with the unsigned bit and a stray bit decodes to `Uint8`, which is
unsigned, and the unsigned bit of the flags is set; code 13 with no flags decodes to
`Year`, which is unsigned with the unsigned bit clear. -/
theorem decoded_classification_agrees_witness :
    MySQLToType 1 (32 + 1) = (Uint8, none) ∧ IsUnsigned Uint8 = true ∧
      (Int.land (32 + 1) mysqlUnsigned ≠ 0 ∨ (1 : Int) = 13) ∧
      MySQLToType 13 0 = (Year, none) ∧ IsUnsigned Year = true ∧
      Int.land 0 mysqlUnsigned = 0 :=
  ⟨by decide, by decide,
   (decoded_classification_agrees 1 (32 + 1) Uint8 (by decide)).2.1 (by decide),
   by decide, by decide, by decide⟩

/-! ## C23 -/

/-- No type is the schema side of one listed pair and the binlog side of another. -/
theorem pairs_no_chain (x y z : Int)
    (h : (x, y) ∈ [(VarChar, VarBinary), (Char, Binary), (Char, Enum), (Char, Set),
        (Text, Blob), (Int8, Uint8), (Int16, Uint16), (Int24, Uint24), (Int32, Uint32),
        (Int64, Uint64)]) :
    (y, z) ∉ [(VarChar, VarBinary), (Char, Binary), (Char, Enum), (Char, Set),
        (Text, Blob), (Int8, Uint8), (Int16, Uint16), (Int24, Uint24), (Int32, Uint32),
        (Int64, Uint64)] := by
  rw [mem_pairs_codes] at h
  rw [mem_pairs_codes]
  omega

/-- C23: `AreTypesEquivalent` is transitive: if `AreTypesEquivalent a b` and
`AreTypesEquivalent b c` are both true then so is `AreTypesEquivalent a c`; indeed one of
the two steps is then an equality, because a chain of two listed pairs cannot occur. -/
theorem AreTypesEquivalent_trans (a b c : VType)
    (hab : AreTypesEquivalent a b = true) (hbc : AreTypesEquivalent b c = true) :
    AreTypesEquivalent a c = true ∧ (a = b ∨ b = c) := by
  rcases (AreTypesEquivalent_eq_or_pair a b).mp hab with e | p
  · subst e
    exact ⟨hbc, Or.inl rfl⟩
  · rcases (AreTypesEquivalent_eq_or_pair b c).mp hbc with e | q
    · subst e
      exact ⟨hab, Or.inr rfl⟩
    · exact absurd q (pairs_no_chain a b c p)

/-- C23 witness: from `Char ~ Char` and `Char ~ Set` follows `Char ~ Set`. -/
theorem AreTypesEquivalent_trans_witness :
    AreTypesEquivalent Char Char = true ∧ AreTypesEquivalent Char Set = true ∧
      AreTypesEquivalent Char Set = true :=
  ⟨by decide, by decide, (AreTypesEquivalent_trans Char Char Set (by decide) (by decide)).1⟩

end Sqltypes
